import Mathlib

/-!
Verification development for the AndCORE synchronization pipeline
(amazon-orders-sync-reports, logisp-inventory-sync, amazon-fba-inventory-sync,
shopify order sync). JavaScript numbers are modelled by `JSNum` (a rational
together with the non-finite values), timestamps by the abstract `TimeVal`,
BigQuery statements by explicit functions on lists of rows, and the
side-effecting pipeline phases by traces of events.
-/

namespace AndCore

/-! ### JavaScript number primitives -/

/-- Model of a JavaScript number: a finite value (idealized as a rational,
ignoring binary floating point rounding and negative zero) or one of the
non-finite values `Infinity`, `-Infinity`, `NaN`. -/
inductive JSNum : Type
  | fin (q : ℚ)
  | posInf
  | negInf
  | nan
deriving DecidableEq

namespace JSNum

/-- Whether a JavaScript number is finite. -/
def isFinite : JSNum → Bool
  | fin _ => true
  | _ => false

/-- JavaScript addition on numbers. -/
def jsAdd : JSNum → JSNum → JSNum
  | fin a, fin b => fin (a + b)
  | nan, _ => nan
  | _, nan => nan
  | posInf, negInf => nan
  | negInf, posInf => nan
  | posInf, _ => posInf
  | _, posInf => posInf
  | negInf, _ => negInf
  | _, negInf => negInf

/-- JavaScript multiplication on numbers. -/
def jsMul : JSNum → JSNum → JSNum
  | fin a, fin b => fin (a * b)
  | nan, _ => nan
  | _, nan => nan
  | posInf, posInf => posInf
  | posInf, negInf => negInf
  | negInf, posInf => negInf
  | negInf, negInf => posInf
  | posInf, fin b => if 0 < b then posInf else if b < 0 then negInf else nan
  | fin a, posInf => if 0 < a then posInf else if a < 0 then negInf else nan
  | negInf, fin b => if 0 < b then negInf else if b < 0 then posInf else nan
  | fin a, negInf => if 0 < a then negInf else if a < 0 then posInf else nan

/-- JavaScript division on numbers.  Division of a nonzero finite value by
zero yields a signed infinity and `0 / 0` yields `NaN`. -/
def jsDiv : JSNum → JSNum → JSNum
  | nan, _ => nan
  | _, nan => nan
  | fin a, fin b =>
      if b = 0 then (if 0 < a then posInf else if a < 0 then negInf else nan)
      else fin (a / b)
  | fin _, posInf => fin 0
  | fin _, negInf => fin 0
  | posInf, fin b => if 0 ≤ b then posInf else negInf
  | negInf, fin b => if 0 ≤ b then negInf else posInf
  | posInf, _ => nan
  | negInf, _ => nan

end JSNum

/-- Whitespace trimming on character lists (the model of JavaScript
`String.prototype.trim`, which strips whitespace including `\r`). -/
def trimChars (cs : List Char) : List Char :=
  ((cs.dropWhile Char.isWhitespace).reverse.dropWhile Char.isWhitespace).reverse

/-- `trimStr` is JavaScript `s.trim()`. -/
def trimStr (s : String) : String :=
  String.mk (trimChars s.data)

/-- Splitting a character list at a separator character, the model of
JavaScript `String.prototype.split` with a one-character separator
(the empty input yields one empty field, as in JavaScript). -/
def charSplit (sep : Char) : List Char → List (List Char)
  | [] => [[]]
  | c :: cs =>
      let r := charSplit sep cs
      if c = sep then [] :: r
      else
        match r with
        | [] => [[c]]
        | h :: t => (c :: h) :: t

/-- `splitStr sep s` is JavaScript `s.split(sep)` for a one-character
separator. -/
def splitStr (sep : Char) (s : String) : List String :=
  (charSplit sep s.data).map String.mk

/-- Numeric value of a list of decimal digit characters, most significant
first, as accumulated by a base-10 left fold. -/
def digitsVal (cs : List Char) : ℕ :=
  cs.foldl (fun a c => a * 10 + (c.toNat - 48)) 0

/-- Numeric value of the decimal part of a JavaScript number literal:
integer digits, optionally followed by a dot and fraction digits.
Returns `none` when no digit is present at all. -/
def parseDecimal (cs : List Char) : Option ℚ :=
  let intPart := cs.takeWhile Char.isDigit
  let rest := cs.dropWhile Char.isDigit
  let fracPart :=
    match rest with
    | '.' :: r => r.takeWhile Char.isDigit
    | _ => []
  if intPart.isEmpty ∧ fracPart.isEmpty then none
  else if fracPart.isEmpty then some (digitsVal intPart : ℚ)
  else some ((digitsVal intPart : ℚ) + (digitsVal fracPart : ℚ) / (10 ^ fracPart.length : ℚ))

/-- Model of JavaScript `parseFloat` restricted to plain decimal literals
(optional sign, digits, optional fraction; exponents and hexadecimal input
are not modelled).  Unparseable input yields `NaN`. -/
def parseFloatJS (s : String) : JSNum :=
  match trimChars s.data with
  | '-' :: rest =>
      match parseDecimal rest with
      | some q => JSNum.fin (-q)
      | none => JSNum.nan
  | '+' :: rest =>
      match parseDecimal rest with
      | some q => JSNum.fin q
      | none => JSNum.nan
  | cs =>
      match parseDecimal cs with
      | some q => JSNum.fin q
      | none => JSNum.nan

/-- Model of JavaScript `parseInt` with radix 10 (optional sign followed by
leading digits; a leading `0x` marker is not modelled).  Unparseable input yields
`NaN`. -/
def parseIntJS (s : String) : JSNum :=
  match trimChars s.data with
  | '-' :: rest =>
      let ds := rest.takeWhile Char.isDigit
      if ds.isEmpty then JSNum.nan else JSNum.fin (-(digitsVal ds : ℚ))
  | '+' :: rest =>
      let ds := rest.takeWhile Char.isDigit
      if ds.isEmpty then JSNum.nan else JSNum.fin (digitsVal ds)
  | cs =>
      let ds := cs.takeWhile Char.isDigit
      if ds.isEmpty then JSNum.nan else JSNum.fin (digitsVal ds)

/-- JavaScript string-or defaulting, `a || b`: a string is falsy exactly
when it is empty. -/
def jsOrStr (a b : String) : String :=
  if a = "" then b else a

/-- Abstract model of a timestamp-valued expression: the instant the code
runs (`new Date().toISOString()`), that instant shifted by a number of
days, or an instant parsed from a source string. -/
inductive TimeVal : Type
  | now
  | nowPlusDays (d : ℤ)
  | fromDateString (s : String)
deriving DecidableEq

/-! ### Batch chunking

Every staging write in the repository inserts rows in batches of 500
(`batchSize = 500` resp. `chunkSize = 500` in the sources). -/

/-- The batch size used by every staging insert loop in the repository. -/
def stagingBatchSize : ℕ := 500

/-- Fuel-driven worker for `chunksOf`. -/
def chunksOfAux : ℕ → List α → List (List α)
  | 0, _ => []
  | _, [] => []
  | fuel + 1, l@(_ :: _) => l.take stagingBatchSize :: chunksOfAux fuel (l.drop stagingBatchSize)

/-- The successive 500-row batches produced by the staging insert loops
(`for (let i = 0; i < rows.length; i += batchSize) ... slice(i, i + batchSize)`). -/
def chunksOf (l : List α) : List (List α) :=
  chunksOfAux l.length l

theorem chunksOfAux_join (fuel : ℕ) (l : List α) (h : l.length ≤ fuel) :
    (chunksOfAux fuel l).flatten = l := by
  induction fuel generalizing l with
  | zero =>
      interval_cases h' : l.length
      · exact List.length_eq_zero.mp h' ▸ rfl
  | succ f ih =>
      cases l with
      | nil => rfl
      | cons a t =>
          simp only [chunksOfAux, List.flatten_cons]
          rw [ih ((a :: t).drop stagingBatchSize) ?_]
          · exact List.take_append_drop _ _
          · simp only [List.length_drop, List.length_cons]
            have : 0 < stagingBatchSize := by norm_num [stagingBatchSize]
            simp only [List.length_cons] at h
            omega

/-- Chunking rows into batches of 500 loses and reorders nothing: the
concatenation of the batches is the original row list. -/
theorem chunksOf_join (l : List α) : (chunksOf l).flatten = l :=
  chunksOfAux_join l.length l le_rfl

/-! ### Amazon Reports canonicalizer (src/amazon-orders-sync-reports/index.js) -/

namespace AmazonReports

/-- The per-run account configuration fields used by `parseReportData`. -/
structure AccountConfig : Type where
  channel : String
  accountName : String
deriving DecidableEq

/-- One canonical order row as pushed by `parseReportData` (lines 391-417):
an order-level record together with the line-item fields of the single
report row it came from. -/
structure ReportOrder : Type where
  order_id : String
  channel : String
  account_name : String
  order_number : String
  order_date : TimeVal
  customer_name : String
  ship_state : String
  ship_city : String
  ship_postal_code : String
  subtotal_amount : JSNum
  tax_amount : JSNum
  shipping_amount : JSNum
  total_amount : JSNum
  currency : String
  payment_status : String
  fulfillment_status : String
  created_at : TimeVal
  updated_at : TimeVal
  line_item_id : String
  sku : String
  product_name : String
  quantity : JSNum
  unit_price : JSNum
  line_total : JSNum
deriving DecidableEq

/-- The row object built by
`headers.forEach((header, index) => { row[header.trim()] = values[index] || ''; })`:
the last occurrence of a header wins, a missing or empty cell yields the
empty string, and an absent key (modelled as the empty string) is falsy
everywhere it is read. -/
def rowLookup (headers values : List String) (h : String) : String :=
  headers.enum.foldl (fun acc (p : ℕ × String) =>
    if trimStr p.2 = h then values.getD p.1 "" else acc) ""

/-- `parseFloat(row[f] || 0)`: an absent or empty field defaults to the
number `0` before parsing. -/
def parseAmountField (v : String) : JSNum :=
  if v = "" then JSNum.fin 0 else parseFloatJS v

/-- The body of the row loop of `parseReportData` (lines 370-418) applied
to one report line: `none` when the line is blank or has no
`amazon-order-id`, otherwise the canonical row pushed onto `orders`. -/
def parseReportLine (cfg : AccountConfig) (headers : List String) (line : String) :
    Option ReportOrder :=
  let l := trimStr line
  if l = "" then none
  else
    let values := splitStr '\t' l
    let get := rowLookup headers values
    if get "amazon-order-id" = "" then none
    else
      let itemPrice := parseAmountField (get "item-price")
      let quantity :=
        if get "quantity-purchased" = "" then JSNum.fin 1
        else parseIntJS (get "quantity-purchased")
      some
        { order_id := get "amazon-order-id"
          channel := cfg.channel
          account_name := cfg.accountName
          order_number := get "amazon-order-id"
          order_date :=
            if get "purchase-date" = "" then TimeVal.now
            else TimeVal.fromDateString (get "purchase-date")
          customer_name :=
            jsOrStr (get "buyer-name") (jsOrStr (get "recipient-name") "Amazon Customer")
          ship_state := jsOrStr (get "ship-state") (get "ship-state-or-region")
          ship_city := get "ship-city"
          ship_postal_code := get "ship-postal-code"
          subtotal_amount := itemPrice
          tax_amount := parseAmountField (get "item-tax")
          shipping_amount := parseAmountField (get "shipping-price")
          total_amount :=
            JSNum.jsAdd (JSNum.jsAdd itemPrice (parseAmountField (get "item-tax")))
              (parseAmountField (get "shipping-price"))
          currency := jsOrStr (get "currency") "JPY"
          payment_status := jsOrStr (get "payment-method") "unknown"
          fulfillment_status := jsOrStr (get "order-status") "unknown"
          created_at := TimeVal.now
          updated_at := TimeVal.now
          line_item_id := jsOrStr (get "order-item-id") (get "amazon-order-id" ++ "-1")
          sku := get "sku"
          product_name := get "product-name"
          quantity := quantity
          unit_price := JSNum.jsDiv itemPrice quantity
          line_total := itemPrice }

/-- `parseReportData` (lines 363-428): split the TSV report into lines,
read the headers from the first line, and canonicalize every following
non-blank line that carries an `amazon-order-id`.  The resulting list is
exactly what `insertToTempTable` later writes to the staging table. -/
def parseReportData (reportData : String) (cfg : AccountConfig) : List ReportOrder :=
  let lines := splitStr '\n' reportData
  let headers := splitStr '\t' (lines.headD "")
  (lines.drop 1).filterMap (parseReportLine cfg headers)

end AmazonReports

/-! ### Stockout forecaster (src/amazon-fba-inventory-sync/index.js) -/

namespace Forecaster

/-- Alert level as assigned by `checkStockoutAlert` (`NORMAL` is the
initial value that suppresses the alert). -/
inductive AlertLevel : Type
  | critical
  | warning
  | normal
deriving DecidableEq

/-- One row of the 30-day sales query (`sales_summary`).  The query
guarantees `total_sold > 0` (`HAVING SUM(oi.quantity) > 0`) and computes
`daily_avg_sales = SUM(oi.quantity) / 30.0`; `product_name` is the empty
string when the `LEFT JOIN` found no product-master row. -/
structure SaleRow : Type where
  master_sku : String
  product_name : String
  total_sold : ℤ
  daily_avg_sales : ℚ
deriving DecidableEq

/-- Per-master-SKU inventory aggregate built by the `inventoryByMasterSku`
loop (lines 77-94): sums of available, inbound and total quantities over
the matching inventory rows (the `locations` array is not modelled; no
claim reads it). -/
structure InvAgg : Type where
  available : ℤ
  inbound : ℤ
  total : ℤ
deriving DecidableEq

/-- One alert object as pushed by `checkStockoutAlert` (lines 100-144). -/
structure Alert : Type where
  master_sku : String
  product_name : String
  current_stock : ℤ
  inbound_stock : ℤ
  daily_sales_rate : ℚ
  days_until_stockout : ℤ
  alert_level : AlertLevel
  suggested_order_qty : ℤ
  message : String
deriving DecidableEq

/-- `parseFloat(x.toFixed(2))`: rounding a rate to two decimal places
(idealized as exact round-half-up on rationals; the rates involved are
positive). -/
def toFixed2 (q : ℚ) : ℚ :=
  (round (q * 100) : ℚ) / 100

/-- The alert pushed on the depleted branch
(`!inventory || inventory.available === 0`, lines 103-115):
`days_until_stockout = 0`, CRITICAL, and a suggested quantity that does
not subtract available or inbound stock;
`inbound_stock = inventory ? inventory.inbound : 0`. -/
def depletedAlert (sale : SaleRow) (inv : Option InvAgg) : Alert :=
  { master_sku := sale.master_sku
    product_name := jsOrStr sale.product_name sale.master_sku
    current_stock := 0
    inbound_stock := inv.elim 0 InvAgg.inbound
    daily_sales_rate := sale.daily_avg_sales
    days_until_stockout := 0
    alert_level := AlertLevel.critical
    suggested_order_qty := ⌈sale.daily_avg_sales * 30⌉
    message := "🔴 在庫切れ中" }

/-- The per-sale body of the alert loop of `checkStockoutAlert`
(lines 100-144).  `inv` is `inventoryByMasterSku[sale.master_sku]`
(`none` when the SKU has no inventory rows).  The source computes an
`alertLevel` ranging over CRITICAL/WARNING/NORMAL and pushes an alert
exactly when it is not NORMAL; that if-chain is written here as directly
returning the pushed alert (or `none` on NORMAL).  Faithful to the
source only when `sale.daily_avg_sales > 0`, which the sales query
guarantees (`HAVING SUM(oi.quantity) > 0`); at rate zero JavaScript
would produce `Infinity` days while `ℚ` division yields zero. -/
def checkStockoutForSale (sale : SaleRow) (inv : Option InvAgg) : Option Alert :=
  match inv with
  | none => some (depletedAlert sale none)
  | some a =>
      if a.available = 0 then some (depletedAlert sale (some a))
      else
        let d : ℤ := ⌊(a.available : ℚ) / sale.daily_avg_sales⌋
        if d ≤ 7 then
          some
            { master_sku := sale.master_sku
              product_name := jsOrStr sale.product_name sale.master_sku
              current_stock := a.available
              inbound_stock := a.inbound
              daily_sales_rate := toFixed2 sale.daily_avg_sales
              days_until_stockout := d
              alert_level := AlertLevel.critical
              suggested_order_qty := ⌈sale.daily_avg_sales * 30⌉ - a.available - a.inbound
              message := s!"🔴 あと{d}日で在庫切れ" }
        else if d ≤ 14 then
          some
            { master_sku := sale.master_sku
              product_name := jsOrStr sale.product_name sale.master_sku
              current_stock := a.available
              inbound_stock := a.inbound
              daily_sales_rate := toFixed2 sale.daily_avg_sales
              days_until_stockout := d
              alert_level := AlertLevel.warning
              suggested_order_qty := ⌈sale.daily_avg_sales * 30⌉ - a.available - a.inbound
              message := s!"⚠️ あと{d}日で在庫切れ" }
        else none

/-- One row of the `stockout_alert` table as built by
`saveAlertsToBigQuery` (lines 188-199). -/
structure StockoutRecord : Type where
  sku : String
  location : String
  predicted_stockout_date : TimeVal
  current_stock : ℤ
  daily_sales_rate : ℚ
  days_until_stockout : ℤ
  alert_level : AlertLevel
  suggested_order_qty : ℤ
  calculated_at : TimeVal
deriving DecidableEq

/-- The record map of `saveAlertsToBigQuery`: notably
`suggested_order_qty: Math.max(0, alert.suggested_order_qty)` and
`predicted_stockout_date: calculateStockoutDate(alert.days_until_stockout)`. -/
def alertToRecord (a : Alert) : StockoutRecord :=
  { sku := a.master_sku
    location := "ALL"
    predicted_stockout_date := TimeVal.nowPlusDays a.days_until_stockout
    current_stock := a.current_stock
    daily_sales_rate := a.daily_sales_rate
    days_until_stockout := a.days_until_stockout
    alert_level := a.alert_level
    suggested_order_qty := max 0 a.suggested_order_qty
    calculated_at := TimeVal.now }

/-- The reorder quantity rendered in the Slack notification
(line 265: `Math.max(0, alert.suggested_order_qty)`). -/
def slackSuggestedQty (a : Alert) : ℤ :=
  max 0 a.suggested_order_qty

end Forecaster

/-! ### Logisp inventory canonicalizer (src/logisp-inventory-sync/index.js,
with the older revision in src/unnamed/part_001) -/

namespace Logisp

/-- One raw item of the Logisp inventory API response.  `skuField` models
the coalesced `item.sku || item.SKU || item.itemCode` (empty string when
every alias is absent or falsy); `quantityField` models
`parseInt(item.quantity || item.stock || item.available || 0)`, using that
`parseInt` is the identity on the integral quantities these numeric
fields carry. -/
structure LogispItem : Type where
  skuField : String
  quantityField : ℤ
deriving DecidableEq

/-- One SKU mapping as produced by `fetchProductMaster`: the
`channel_settings`/`product_master` join row keyed by `channel_sku`, with
`COALESCE(pm.is_case_product, FALSE)` and `COALESCE(pm.units_per_case, 1)`
already applied. -/
structure LogispProduct : Type where
  master_sku : String
  is_case_product : Bool
  units_per_case : ℤ
deriving DecidableEq

/-- One canonical inventory row as pushed by `convertInventoryData`. -/
structure InvRow : Type where
  sku : String
  location : String
  location_type : String
  available_quantity : ℤ
  reserved_quantity : ℤ
  inbound_quantity : ℤ
  total_quantity : ℤ
  last_updated : TimeVal
  sync_status : String
  is_case_converted : Bool
  original_sku : String
  original_quantity : ℤ
deriving DecidableEq

/-- The per-item body of the `forEach` of `convertInventoryData`
(src/logisp-inventory-sync/index.js lines 218-278): skip items without a
SKU; pass unmapped SKUs through unchanged; resolve mapped SKUs to the
master SKU, expanding case quantities when `is_case_product` holds and
`units_per_case > 1`. -/
def convertItem (pm : String → Option LogispProduct) (item : LogispItem) : Option InvRow :=
  let sku := item.skuField
  let quantity := item.quantityField
  if sku = "" then none
  else
    match pm sku with
    | none =>
        some
          { sku := sku
            location := "ロジスピ"
            location_type := "External"
            available_quantity := quantity
            reserved_quantity := 0
            inbound_quantity := 0
            total_quantity := quantity
            last_updated := TimeVal.now
            sync_status := "success"
            is_case_converted := false
            original_sku := sku
            original_quantity := quantity }
    | some product =>
        let convert : Bool := product.is_case_product ∧ 1 < product.units_per_case
        let finalQty := if convert then quantity * product.units_per_case else quantity
        some
          { sku := product.master_sku
            location := "ロジスピ"
            location_type := "External"
            available_quantity := finalQty
            reserved_quantity := 0
            inbound_quantity := 0
            total_quantity := finalQty
            last_updated := TimeVal.now
            sync_status := "success"
            is_case_converted := convert
            original_sku := sku
            original_quantity := quantity }

/-- `convertInventoryData` (lines 214-281): the `forEach`-with-push loop
is a `filterMap` of the per-item body. -/
def convertInventoryData (items : List LogispItem) (pm : String → Option LogispProduct) :
    List InvRow :=
  items.filterMap (convertItem pm)

/-- The SKUs reported by the distinct unmapped-SKU warning
(`console.warn` on line 233, `SKUマッピングが見つかりません`): items that
carry a SKU for which the product master has no mapping. -/
def unmappedSkuWarnings (items : List LogispItem) (pm : String → Option LogispProduct) :
    List String :=
  items.filterMap fun i =>
    if i.skuField ≠ "" ∧ (pm i.skuField).isNone then some i.skuField else none

/-- The per-item body of `convertInventoryData` in the older revision
(src/unnamed/part_001 lines 197-244): same skip of SKU-less items, but the
master SKU is substituted only inside the case-conversion branch and no
unmapped warning is emitted. -/
def convertItemV0 (pm : String → Option LogispProduct) (item : LogispItem) : Option InvRow :=
  let sku := item.skuField
  let quantity := item.quantityField
  if sku = "" then none
  else
    let convert : Bool :=
      match pm sku with
      | some product => product.is_case_product ∧ 1 < product.units_per_case
      | none => false
    let finalQty :=
      if convert then quantity * ((pm sku).map LogispProduct.units_per_case).getD 1
      else quantity
    let finalSku :=
      if convert then jsOrStr (((pm sku).map LogispProduct.master_sku).getD "") sku
      else sku
    some
      { sku := finalSku
        location := "ロジスピ"
        location_type := "External"
        available_quantity := finalQty
        reserved_quantity := 0
        inbound_quantity := 0
        total_quantity := finalQty
        last_updated := TimeVal.now
        sync_status := "success"
        is_case_converted := convert
        original_sku := sku
        original_quantity := quantity }

/-- `convertInventoryData` of the older revision (src/unnamed/part_001). -/
def convertInventoryDataV0 (items : List LogispItem) (pm : String → Option LogispProduct) :
    List InvRow :=
  items.filterMap (convertItemV0 pm)

/-- One row of the staging (temp) table of `saveInventoryToBigQuery`
(schema at lines 298-308): note the schema has no column for the original
SKU, the original quantity or the conversion flag. -/
structure InvStageRow : Type where
  sku : String
  location : String
  location_type : String
  available_quantity : ℤ
  reserved_quantity : ℤ
  inbound_quantity : ℤ
  total_quantity : ℤ
  last_updated : TimeVal
  sync_status : String
deriving DecidableEq

/-- The row projection applied inside the staging insert loop of
`saveInventoryToBigQuery` (lines 317-327): only the nine staging-schema
fields survive. -/
def toStageRow (r : InvRow) : InvStageRow :=
  { sku := r.sku
    location := r.location
    location_type := r.location_type
    available_quantity := r.available_quantity
    reserved_quantity := r.reserved_quantity
    inbound_quantity := r.inbound_quantity
    total_quantity := r.total_quantity
    last_updated := r.last_updated
    sync_status := r.sync_status }

/-- The successive staging insert batches of `saveInventoryToBigQuery`:
500-row slices, each mapped through the staging projection. -/
def insertInventoryBatches (rows : List InvRow) : List (List InvStageRow) :=
  (chunksOf rows).map (List.map toStageRow)

end Logisp

/-! ### Keyed merge statements (BigQuery MERGE)

A BigQuery `MERGE target T USING source S ON cond` updates every target
row matched by a source row, inserts every source row matching no target
row, and fails atomically (leaving the target unchanged) when one target
row is matched by more than one source row. -/

namespace Merge

variable {R K : Type} [DecidableEq K]

/-- Per-target-row effect of a merge: update by the (first) matching
source row, or keep the row unchanged. -/
def applySrc (key : R → K) (upd : R → R → R) (S : List R) (t : R) : R :=
  match S.find? (fun s => decide (key s = key t)) with
  | some s => upd t s
  | none => t

/-- The rows of a successful merge of source `S` into target `T`. -/
def mergedRows (key : R → K) (upd : R → R → R) (ins : R → R) (S T : List R) : List R :=
  T.map (applySrc key upd S)
    ++ (S.filter (fun s => !T.any (fun t => decide (key t = key s)))).map ins

/-- One merge statement: `none` models the BigQuery runtime error raised
when a target row is matched by two or more source rows (the statement
then has no effect); otherwise the merged rows. -/
def mergeRun (key : R → K) (upd : R → R → R) (ins : R → R) (S T : List R) :
    Option (List R) :=
  if T.any (fun t => decide (2 ≤ S.countP (fun s => decide (key s = key t)))) then none
  else some (mergedRows key upd ins S T)

/-- The durable table state after attempting a merge against target `T`. -/
def stateAfter (r : Option (List R)) (T : List R) : List R :=
  r.getD T

theorem find?_eq_head?_filter (p : α → Bool) (l : List α) :
    l.find? p = (l.filter p).head? := by
  induction l with
  | nil => rfl
  | cons a t ih =>
      by_cases h : p a = true
      · rw [List.find?_cons_of_pos _ h, List.filter_cons_of_pos h, List.head?_cons]
      · rw [List.find?_cons_of_neg _ h, List.filter_cons_of_neg h, ih]

theorem key_applySrc (key : R → K) (upd : R → R → R) (S : List R) (t : R)
    (hku : ∀ t s, key (upd t s) = key t) :
    key (applySrc key upd S t) = key t := by
  unfold applySrc
  cases hf : S.find? (fun s => decide (key s = key t)) <;> simp [hku]

/-- Re-issuing a keyed merge with the same source against the result of a
successful first merge changes the target only up to the normalization
`norm` (which erases the fields the update rewrites non-idempotently,
such as a `CURRENT_TIMESTAMP()` bookkeeping column): either the second
statement fails atomically, or every source row matches an existing row
and the updates rewrite the values already present. -/
theorem mergeRun_again (key : R → K) (upd₁ upd₂ : R → R → R) (ins₁ ins₂ : R → R)
    (norm : R → R)
    (hku : ∀ t s, key (upd₁ t s) = key t)
    (hki : ∀ s, key (ins₁ s) = key s)
    (h21 : ∀ t s, norm (upd₂ (upd₁ t s) s) = norm (upd₁ t s))
    (h2i : ∀ s, norm (upd₂ (ins₁ s) s) = norm (ins₁ s))
    (S T T₁ : List R) (h1 : mergeRun key upd₁ ins₁ S T = some T₁) :
    (stateAfter (mergeRun key upd₂ ins₂ S T₁) T₁).map norm = T₁.map norm := by
  unfold mergeRun at h1
  split at h1
  · exact absurd h1 (by simp)
  next hdup1 =>
  injection h1 with h1
  subst h1
  unfold mergeRun
  split
  next hdup2 => rfl
  next hdup2 =>
  show (stateAfter (some _) _).map norm = _
  unfold stateAfter
  rw [Option.getD_some]
  set T₁ := mergedRows key upd₁ ins₁ S T with hT₁
  have hcount : ∀ x ∈ T₁, S.countP (fun s => decide (key s = key x)) ≤ 1 := by
    intro x hx
    by_contra hge
    push_neg at hge
    exact hdup2 (List.any_eq_true.mpr ⟨x, hx, by simpa using hge⟩)
  have hx_key : ∀ x ∈ T₁, (x ∈ T.map (applySrc key upd₁ S)) ∨
      ∃ s ∈ S, x = ins₁ s := by
    intro x hx
    rw [hT₁] at hx
    unfold mergedRows at hx
    rcases List.mem_append.mp hx with hA | hB
    · exact Or.inl hA
    · right
      obtain ⟨s, hs, rfl⟩ := List.mem_map.mp hB
      exact ⟨s, (List.mem_filter.mp hs).1, rfl⟩
  have hins : S.filter (fun s => !T₁.any (fun t => decide (key t = key s))) = [] := by
    rw [List.filter_eq_nil_iff]
    intro s hs
    simp only [Bool.not_eq_true', Bool.not_eq_false]
    rw [List.any_eq_true]
    cases hTm : T.any (fun t => decide (key t = key s)) with
    | true =>
        obtain ⟨t, ht, hkey⟩ := List.any_eq_true.mp hTm
        refine ⟨applySrc key upd₁ S t, ?_, ?_⟩
        · rw [hT₁]; unfold mergedRows
          exact List.mem_append.mpr (Or.inl (List.mem_map.mpr ⟨t, ht, rfl⟩))
        · rw [key_applySrc key upd₁ S t hku]; exact hkey
    | false =>
        refine ⟨ins₁ s, ?_, ?_⟩
        · rw [hT₁]; unfold mergedRows
          refine List.mem_append.mpr (Or.inr (List.mem_map.mpr ⟨s, ?_, rfl⟩))
          rw [List.mem_filter]
          exact ⟨hs, by simp only [hTm, Bool.not_false]⟩
        · rw [hki]; simp
  unfold mergedRows
  rw [hins]
  simp only [List.map_nil, List.append_nil, List.map_map]
  apply List.map_congr_left
  intro x hx
  simp only [Function.comp_apply]
  rcases hx_key x hx with hA | ⟨s, hsS, rfl⟩
  · obtain ⟨t, _, rfl⟩ := List.mem_map.mp hA
    have hkeq : key (applySrc key upd₁ S t) = key t := key_applySrc key upd₁ S t hku
    have hpred : (fun s => decide (key s = key (applySrc key upd₁ S t)))
        = (fun s => decide (key s = key t)) := by
      funext s; rw [hkeq]
    cases hf : S.find? (fun s => decide (key s = key t)) with
    | none =>
        have h₁ : applySrc key upd₁ S t = t := by unfold applySrc; rw [hf]
        rw [h₁]
        unfold applySrc
        rw [hf]
    | some s =>
        have h₁ : applySrc key upd₁ S t = upd₁ t s := by unfold applySrc; rw [hf]
        rw [h₁] at hpred ⊢
        unfold applySrc
        rw [hpred, hf]
        exact h21 t s
  · have hkeq : key (ins₁ s) = key s := hki s
    have hpred : (fun s' => decide (key s' = key (ins₁ s)))
        = (fun s' => decide (key s' = key s)) := by
      funext s'; rw [hkeq]
    have hmemf : s ∈ S.filter (fun s' => decide (key s' = key s)) :=
      List.mem_filter.mpr ⟨hsS, by simp⟩
    have hlen : (S.filter (fun s' => decide (key s' = key s))).length ≤ 1 := by
      have := hcount (ins₁ s) hx
      rw [hpred] at this
      simpa [List.countP_eq_length_filter] using this
    have hfl : S.filter (fun s' => decide (key s' = key s)) = [s] := by
      cases hc : S.filter (fun s' => decide (key s' = key s)) with
      | nil => rw [hc] at hmemf; simp at hmemf
      | cons a tail =>
          rw [hc] at hmemf hlen
          simp only [List.length_cons] at hlen
          have htail : tail = [] := List.length_eq_zero.mp (by omega)
          subst htail
          simp only [List.mem_singleton] at hmemf
          rw [hmemf]
    unfold applySrc
    rw [hpred, find?_eq_head?_filter, hfl]
    show norm (upd₂ (ins₁ s) s) = norm (ins₁ s)
    exact h2i s

/-- The multiset of keys is unchanged by the second merge: in particular
no key (and hence no duplicate of an existing key) is inserted. -/
theorem mergeRun_again_keys (key : R → K) (upd₁ upd₂ : R → R → R) (ins₁ ins₂ : R → R)
    (norm : R → R)
    (hku : ∀ t s, key (upd₁ t s) = key t)
    (hki : ∀ s, key (ins₁ s) = key s)
    (h21 : ∀ t s, norm (upd₂ (upd₁ t s) s) = norm (upd₁ t s))
    (h2i : ∀ s, norm (upd₂ (ins₁ s) s) = norm (ins₁ s))
    (hkn : ∀ r, key (norm r) = key r)
    (S T T₁ : List R) (h1 : mergeRun key upd₁ ins₁ S T = some T₁) :
    (stateAfter (mergeRun key upd₂ ins₂ S T₁) T₁).map key = T₁.map key := by
  have h := mergeRun_again key upd₁ upd₂ ins₁ ins₂ norm hku hki h21 h2i S T T₁ h1
  have hmaps := congrArg (List.map key) h
  simpa [List.map_map, Function.comp_def, hkn] using hmaps

/-! #### The Amazon orders staging table and the two order merges
(src/amazon-orders-sync-reports/index.js, `createTempTable` and
`mergeToMainTables`) -/

/-- One row of the Amazon orders staging table (schema of
`createTempTable`, lines 484-509).  At this level timestamps are abstract
instants (`ℕ`) and the FLOAT64 columns are rationals. -/
structure TempOrderRow : Type where
  order_id : String
  channel : String
  account_name : String
  order_number : String
  order_date : ℕ
  customer_name : String
  ship_state : String
  ship_city : String
  ship_postal_code : String
  subtotal_amount : ℚ
  tax_amount : ℚ
  shipping_amount : ℚ
  total_amount : ℚ
  currency : String
  payment_status : String
  fulfillment_status : String
  created_at : ℕ
  updated_at : ℕ
  line_item_id : String
  sku : String
  product_name : String
  quantity : ℤ
  unit_price : ℚ
  line_total : ℚ
deriving DecidableEq

/-- One row of the durable `orders` table (the 18 columns named by the
orders `MERGE`). -/
structure OrderRow : Type where
  order_id : String
  channel : String
  account_name : String
  order_number : String
  order_date : ℕ
  customer_name : String
  ship_state : String
  ship_city : String
  ship_postal_code : String
  subtotal_amount : ℚ
  tax_amount : ℚ
  shipping_amount : ℚ
  total_amount : ℚ
  currency : String
  payment_status : String
  fulfillment_status : String
  created_at : ℕ
  updated_at : ℕ
deriving DecidableEq

/-- One row of the durable `order_items` table (the 12 columns named by
the order-items `MERGE`). -/
structure ItemRow : Type where
  order_id : String
  channel : String
  line_item_id : String
  sku : String
  product_name : String
  quantity : ℤ
  unit_price : ℚ
  line_total : ℚ
  currency : String
  quantity_fulfilled : ℤ
  quantity_unfulfilled : ℤ
  created_at : ℕ
deriving DecidableEq

/-- A placeholder row for `headD` on groups that are never empty. -/
def dfltTempOrderRow : TempOrderRow :=
  { order_id := "", channel := "", account_name := "", order_number := ""
    order_date := 0, customer_name := "", ship_state := "", ship_city := ""
    ship_postal_code := "", subtotal_amount := 0, tax_amount := 0
    shipping_amount := 0, total_amount := 0, currency := "", payment_status := ""
    fulfillment_status := "", created_at := 0, updated_at := 0, line_item_id := ""
    sku := "", product_name := "", quantity := 0, unit_price := 0, line_total := 0 }

/-- The `USING` subquery of the orders merge (lines 540-584): collapse the
staging rows to one row per `(order_id, channel)`, summing the amount
columns and taking `ANY_VALUE` of the descriptive columns.  `ANY_VALUE`
is modelled as the first contributing row (the source documents the
choice as arbitrary). -/
def collapseOrders (S : List TempOrderRow) : List OrderRow :=
  ((S.map fun r => (r.order_id, r.channel)).dedup).map fun k =>
    let grp := S.filter fun r => decide (r.order_id = k.1 ∧ r.channel = k.2)
    let w := grp.headD dfltTempOrderRow
    { order_id := k.1
      channel := k.2
      account_name := w.account_name
      order_number := w.order_number
      order_date := w.order_date
      customer_name := w.customer_name
      ship_state := w.ship_state
      ship_city := w.ship_city
      ship_postal_code := w.ship_postal_code
      subtotal_amount := (grp.map TempOrderRow.subtotal_amount).sum
      tax_amount := (grp.map TempOrderRow.tax_amount).sum
      shipping_amount := (grp.map TempOrderRow.shipping_amount).sum
      total_amount := (grp.map TempOrderRow.total_amount).sum
      currency := w.currency
      payment_status := w.payment_status
      fulfillment_status := w.fulfillment_status
      created_at := w.created_at
      updated_at := w.updated_at }

/-- The natural key of an `orders` row. -/
def orderKey (r : OrderRow) : String × String :=
  (r.order_id, r.channel)

/-- The `WHEN MATCHED` update of the orders merge: every business column
is overwritten from the source and `updated_at` is set to
`CURRENT_TIMESTAMP()` (the abstract instant `now`); `account_name` and
`created_at` keep their target values. -/
def ordersUpd (now : ℕ) (t s : OrderRow) : OrderRow :=
  { t with
    order_number := s.order_number
    order_date := s.order_date
    customer_name := s.customer_name
    ship_state := s.ship_state
    ship_city := s.ship_city
    ship_postal_code := s.ship_postal_code
    subtotal_amount := s.subtotal_amount
    tax_amount := s.tax_amount
    shipping_amount := s.shipping_amount
    total_amount := s.total_amount
    currency := s.currency
    payment_status := s.payment_status
    fulfillment_status := s.fulfillment_status
    updated_at := now }

/-- The orders `MERGE` statement of `mergeToMainTables` executed at the
abstract instant `now`. -/
def mergeOrdersStatement (now : ℕ) (S : List TempOrderRow) (T : List OrderRow) :
    Option (List OrderRow) :=
  mergeRun orderKey (ordersUpd now) id (collapseOrders S) T

/-- Erase the bookkeeping column the orders update rewrites on every
merge (`updated_at = CURRENT_TIMESTAMP()`). -/
def stripUpdatedAt (r : OrderRow) : OrderRow :=
  { r with updated_at := 0 }

/-- The `USING` select of the order-items merge (lines 625-639): one
source row per staging row, with `quantity_fulfilled = 0` and
`quantity_unfulfilled = quantity` computed in the select. -/
def itemSrcOfTemp (r : TempOrderRow) : ItemRow :=
  { order_id := r.order_id
    channel := r.channel
    line_item_id := r.line_item_id
    sku := r.sku
    product_name := r.product_name
    quantity := r.quantity
    unit_price := r.unit_price
    line_total := r.line_total
    currency := r.currency
    quantity_fulfilled := 0
    quantity_unfulfilled := r.quantity
    created_at := r.created_at }

/-- The natural key of an `order_items` row. -/
def itemKey (r : ItemRow) : String × String × String :=
  (r.order_id, r.channel, r.line_item_id)

/-- The `WHEN MATCHED` update of the order-items merge: only `sku`,
`product_name`, `quantity`, `unit_price` and `line_total` are rewritten. -/
def itemsUpd (t s : ItemRow) : ItemRow :=
  { t with
    sku := s.sku
    product_name := s.product_name
    quantity := s.quantity
    unit_price := s.unit_price
    line_total := s.line_total }

/-- The order-items `MERGE` statement of `mergeToMainTables`. -/
def mergeItemsStatement (S : List TempOrderRow) (T : List ItemRow) :
    Option (List ItemRow) :=
  mergeRun itemKey itemsUpd id (S.map itemSrcOfTemp) T

/-! #### The Logisp inventory merge
(src/logisp-inventory-sync/index.js, `saveInventoryToBigQuery`) -/

/-- The natural key of an `inventory` row. -/
def invKey (r : Logisp.InvStageRow) : String × String :=
  (r.sku, r.location)

/-- The `WHEN MATCHED` update of the inventory merge (lines 345-352):
quantities, `last_updated` and `sync_status` are rewritten from the
staging row; `location_type` keeps its target value. -/
def invUpd (t s : Logisp.InvStageRow) : Logisp.InvStageRow :=
  { t with
    available_quantity := s.available_quantity
    reserved_quantity := s.reserved_quantity
    inbound_quantity := s.inbound_quantity
    total_quantity := s.total_quantity
    last_updated := s.last_updated
    sync_status := s.sync_status }

/-- The inventory `MERGE` statement of `saveInventoryToBigQuery`
(lines 341-364): source is the staging table itself, keyed by
`(sku, location)`. -/
def mergeInventoryStatement (S T : List Logisp.InvStageRow) :
    Option (List Logisp.InvStageRow) :=
  mergeRun invKey invUpd id S T

end Merge

/-! ### Decimal rendering of naturals

`Date.now()`-based staging table names interpolate a natural number in
decimal.  The following connects the core `Nat.repr` to a structural
digit expansion and proves it injective. -/

/-- Structural decimal digit expansion of a natural number. -/
def decDigits (n : ℕ) : List Char :=
  if n < 10 then [Nat.digitChar n]
  else decDigits (n / 10) ++ [Nat.digitChar (n % 10)]
termination_by n
decreasing_by exact Nat.div_lt_self (by omega) (by norm_num)

theorem decDigits_lt {n : ℕ} (h : n < 10) : decDigits n = [Nat.digitChar n] := by
  rw [decDigits, if_pos h]

theorem decDigits_ge {n : ℕ} (h : ¬ n < 10) :
    decDigits n = decDigits (n / 10) ++ [Nat.digitChar (n % 10)] := by
  rw [decDigits]
  exact if_neg h

theorem toDigitsCore_eq_decDigits (f n : ℕ) (ds : List Char) (h : n < f) :
    Nat.toDigitsCore 10 f n ds = decDigits n ++ ds := by
  induction f generalizing n ds with
  | zero => omega
  | succ f ih =>
      simp only [Nat.toDigitsCore]
      by_cases hd : n / 10 = 0
      · have hn : n < 10 := by omega
        rw [if_pos hd, decDigits_lt hn, Nat.mod_eq_of_lt hn]
        rfl
      · have hn : ¬ n < 10 := by omega
        have hlt : n / 10 < f := by
          have := Nat.div_lt_self (by omega : 0 < n) (by norm_num : 1 < 10)
          omega
        rw [if_neg hd, ih (n / 10) _ hlt, decDigits_ge hn, List.append_assoc]
        rfl

theorem repr_eq_decDigits (n : ℕ) : Nat.repr n = (decDigits n).asString := by
  unfold Nat.repr Nat.toDigits
  rw [toDigitsCore_eq_decDigits (n + 1) n [] (Nat.lt_succ_self n), List.append_nil]

theorem digitChar_inj10 (a b : Fin 10) (h : Nat.digitChar a = Nat.digitChar b) : a = b := by
  revert h
  revert a b
  decide

theorem decDigits_ne_nil (n : ℕ) : decDigits n ≠ [] := by
  rw [decDigits]
  by_cases h : n < 10 <;> simp [h]

theorem decDigits_inj : ∀ m n : ℕ, decDigits m = decDigits n → m = n := by
  intro m
  induction m using Nat.strong_induction_on with
  | _ m ih =>
      intro n h
      by_cases hm : m < 10 <;> by_cases hn : n < 10
      · rw [decDigits_lt hm, decDigits_lt hn] at h
        have := digitChar_inj10 ⟨m, hm⟩ ⟨n, hn⟩ (by simpa using h)
        simpa using this
      · rw [decDigits_lt hm, decDigits_ge hn] at h
        have hlen := congrArg List.length h
        simp only [List.length_singleton, List.length_append] at hlen
        have := List.length_pos.mpr (decDigits_ne_nil (n / 10))
        omega
      · rw [decDigits_ge hm, decDigits_lt hn] at h
        have hlen := congrArg List.length h
        simp only [List.length_singleton, List.length_append] at hlen
        have := List.length_pos.mpr (decDigits_ne_nil (m / 10))
        omega
      · rw [decDigits_ge hm, decDigits_ge hn] at h
        obtain ⟨h₁, h₂⟩ := List.append_inj' h (by simp)
        have hdiv : m / 10 = n / 10 :=
          ih (m / 10) (Nat.div_lt_self (by omega) (by norm_num)) (n / 10) h₁
        have hmod : m % 10 = n % 10 := by
          have := digitChar_inj10 ⟨m % 10, Nat.mod_lt _ (by norm_num)⟩
            ⟨n % 10, Nat.mod_lt _ (by norm_num)⟩ (by simpa using h₂)
          simpa using this
        omega

theorem natRepr_injective : Function.Injective Nat.repr := by
  intro m n h
  rw [repr_eq_decDigits, repr_eq_decDigits] at h
  exact decDigits_inj m n (congrArg String.data h)

/-! ### Staging table names -/

namespace StagingNames

/-- The staging table name of the Amazon orders sync
(src/amazon-orders-sync-reports/index.js line 29): a module-level
constant, independent of any run-scoped token. -/
def amazonOrdersTempTableId : String := "orders_temp_amazon"

/-- The staging table name of the Logisp inventory sync
(src/logisp-inventory-sync/index.js lines 293-294):
`inventory_temp_logisp_${Date.now()}` — a millisecond timestamp with no
random suffix. -/
def logispTempTableId (timestamp : ℕ) : String :=
  "inventory_temp_logisp_" ++ Nat.repr timestamp

/-- The orders staging table name of the Shopify sync
(src/unnamed/part_000 lines 172-173): `orders_temp_${Date.now()}`. -/
def shopifyTempTableOrders (timestamp : ℕ) : String :=
  "orders_temp_" ++ Nat.repr timestamp

/-- The order-items staging table name of the Shopify sync
(src/unnamed/part_000 line 174): `order_items_temp_${Date.now()}`. -/
def shopifyTempTableItems (timestamp : ℕ) : String :=
  "order_items_temp_" ++ Nat.repr timestamp

theorem string_append_left_cancel {s a b : String} (h : s ++ a = s ++ b) : a = b := by
  have hd : s.data ++ a.data = s.data ++ b.data := by
    have := congrArg String.data h
    simpa [String.data_append] using this
  have hab : a.data = b.data := List.append_cancel_left hd
  cases a
  cases b
  exact congrArg String.mk hab

theorem logispTempTableId_inj (t₁ t₂ : ℕ)
    (h : logispTempTableId t₁ = logispTempTableId t₂) : t₁ = t₂ :=
  natRepr_injective (string_append_left_cancel h)

theorem shopifyTempTableOrders_inj (t₁ t₂ : ℕ)
    (h : shopifyTempTableOrders t₁ = shopifyTempTableOrders t₂) : t₁ = t₂ :=
  natRepr_injective (string_append_left_cancel h)

theorem shopifyTempTableItems_inj (t₁ t₂ : ℕ)
    (h : shopifyTempTableItems t₁ = shopifyTempTableItems t₂) : t₁ = t₂ :=
  natRepr_injective (string_append_left_cancel h)

end StagingNames

/-! ### Report generation polling (src/amazon-orders-sync-reports/index.js,
`waitForReport` and the sub-window loop of the handler) -/

namespace Reports

/-- `processingStatus` values distinguished by `waitForReport`. -/
inductive ReportStatus : Type
  | done (documentId : String)
  | fatal
  | cancelled
  | inProgress
deriving DecidableEq

/-- `maxWaitTime` default of `waitForReport` (line 277): 10 minutes. -/
def maxWaitTime : ℕ := 600000

/-- `pollInterval` of `waitForReport` (line 279): 10 seconds. -/
def pollInterval : ℕ := 10000

/-- Number of polls the loop performs before the elapsed time reaches
`maxWaitTime` (idealizing the API calls as instantaneous, so the clock
advances by one `pollInterval` per iteration). -/
def maxPolls : ℕ := maxWaitTime / pollInterval

/-- The polling loop of `waitForReport` (lines 281-301): `statuses k` is
the status returned by the `k`-th poll.  Ends with the document id on
`DONE`, an error on `FATAL`/`CANCELLED`, and the timeout error once the
poll budget is exhausted. -/
def waitLoop (statuses : ℕ → ReportStatus) : ℕ → ℕ → Except String String
  | 0, _ => Except.error "レポート生成タイムアウト（10分）"
  | remaining + 1, k =>
      match statuses k with
      | ReportStatus.done documentId => Except.ok documentId
      | ReportStatus.fatal => Except.error "レポート生成失敗: FATAL"
      | ReportStatus.cancelled => Except.error "レポート生成失敗: CANCELLED"
      | ReportStatus.inProgress => waitLoop statuses remaining (k + 1)

/-- `waitForReport` with the default maximum wait. -/
def waitForReport (statuses : ℕ → ReportStatus) : Except String String :=
  waitLoop statuses maxPolls 0

/-- One 30-day sub-window of the handler loop (lines 80-125): the status
sequence its report polling observes, and the canonical rows its report
parses to. -/
structure ReportWindow : Type where
  statuses : ℕ → ReportStatus
  rows : List AmazonReports.ReportOrder

/-- The sub-window loop of the handler: process windows in order,
appending each parsed row batch to `allOrders`; any exception from
`waitForReport` propagates out of the loop uncaught. -/
def fetchAllWindows : List ReportWindow → Except String (List AmazonReports.ReportOrder)
  | [] => Except.ok []
  | w :: ws =>
      match waitForReport w.statuses with
      | Except.error e => Except.error e
      | Except.ok _ =>
          match fetchAllWindows ws with
          | Except.error e => Except.error e
          | Except.ok rest => Except.ok (w.rows ++ rest)

/-- The rows the run hands to staging (`insertToTempTable(allOrders)`):
`none` when the window loop threw, because the only handler for that
exception is the top-level catch, which responds 500 without staging
anything. -/
def stagedOrders (ws : List ReportWindow) : Option (List AmazonReports.ReportOrder) :=
  match fetchAllWindows ws with
  | Except.error _ => none
  | Except.ok orders => some orders

theorem waitLoop_timeout (statuses : ℕ → ReportStatus)
    (h : ∀ j, statuses j = ReportStatus.inProgress) :
    ∀ r k, waitLoop statuses r k = Except.error "レポート生成タイムアウト（10分）" := by
  intro r
  induction r with
  | zero => intro k; rfl
  | succ r ih =>
      intro k
      simp only [waitLoop, h k]
      exact ih (k + 1)

end Reports

/-! ### Pipeline run traces

The handlers are sequential `try`-bodies: every statement either
completes or throws, and a throw transfers control directly to the
top-level `catch`, which responds 500 and runs nothing else.  A run is
modelled as the list of its observable sink effects, parameterized by the
point at which a failure (if any) is thrown. -/

namespace Pipeline

/-- The MERGE statements issued by the pipelines. -/
inductive MergeKind : Type
  | amazonOrders
  | amazonItems
  | shopifyOrders
  | shopifyItems
  | logispInventory
deriving DecidableEq

/-- Observable side effects of a pipeline run against the sink. -/
inductive Ev : Type
  | createTable (name : String)
  | deleteTable (name : String)
  | insertRows (table : String) (count : ℕ)
  | sleepMs (ms : ℕ)
  | merge (k : MergeKind)
  | respond (ok : Bool)
deriving DecidableEq

/-- Whether an event is a staging batch insert. -/
def Ev.isInsert : Ev → Bool
  | Ev.insertRows _ _ => true
  | _ => false

/-- Whether an event is a merge statement. -/
def Ev.isMerge : Ev → Bool
  | Ev.merge _ => true
  | _ => false

/-- Whether an event creates a table. -/
def Ev.isCreate : Ev → Bool
  | Ev.createTable _ => true
  | _ => false

/-- Whether an event deletes a table. -/
def Ev.isDelete : Ev → Bool
  | Ev.deleteTable _ => true
  | _ => false

/-- The names of the staging tables a run creates. -/
def createdTables (tr : List Ev) : List String :=
  tr.filterMap fun e =>
    match e with
    | Ev.createTable n => some n
    | _ => none

/-- The events that follow the creation of the (last) staging table. -/
def eventsAfterLastCreate (tr : List Ev) : List Ev :=
  (tr.reverse.takeWhile (fun e => !e.isCreate)).reverse

/-- Whether a staging table is deleted after the staging phase created
the last staging table. -/
def stagingCleanedUp (tr : List Ev) : Bool :=
  (eventsAfterLastCreate tr).any Ev.isDelete

/-- The visibility-wait discipline: if the trace issues any merge, then
it splits at a 90-second sleep with no merge before it and no staging
insert after it. -/
def mergeAfterWait (tr : List Ev) : Prop :=
  (∃ e ∈ tr, e.isMerge = true) →
  ∃ pre post, tr = pre ++ Ev.sleepMs 90000 :: post ∧
    (∀ e ∈ pre, e.isMerge = false) ∧ (∀ e ∈ post, e.isInsert = false)

/-- Failure points of the Amazon orders sync after fetching. -/
inductive AmazonFail : Type
  | ok
  | atInsert
  | atMergeOrders
  | atMergeItems
deriving DecidableEq

/-- Trace of the staging-to-cleanup phase of `syncAmazonOrdersReports`
(lines 129-186): nothing staged when no orders were fetched; otherwise
`createTempTable` (a delete of the constant-named table followed by its
creation), the batched inserts, the 90-second sleep, the two merges, the
staging-table delete, and the HTTP response.  A failure at `fp` throws to
the top-level catch, which only responds 500. -/
def amazonRunTrace (orders : List AmazonReports.ReportOrder) (fp : AmazonFail) : List Ev :=
  if orders.isEmpty then [Ev.respond true]
  else
    [Ev.deleteTable StagingNames.amazonOrdersTempTableId,
     Ev.createTable StagingNames.amazonOrdersTempTableId] ++
    match fp with
    | AmazonFail.atInsert => [Ev.respond false]
    | _ =>
        ((chunksOf orders).map fun b =>
          Ev.insertRows StagingNames.amazonOrdersTempTableId b.length) ++
        [Ev.sleepMs 90000, Ev.merge MergeKind.amazonOrders] ++
        match fp with
        | AmazonFail.atMergeOrders => [Ev.respond false]
        | _ =>
            [Ev.merge MergeKind.amazonItems] ++
            match fp with
            | AmazonFail.atMergeItems => [Ev.respond false]
            | _ => [Ev.deleteTable StagingNames.amazonOrdersTempTableId, Ev.respond true]

/-- Failure points of the Logisp inventory sync after conversion. -/
inductive LogispFail : Type
  | ok
  | atInsert
  | atMerge
deriving DecidableEq

/-- Trace of `saveInventoryToBigQuery` (lines 286-373) together with the
enclosing handler response; `t` is the `Date.now()` of the run. -/
def logispRunTrace (rows : List Logisp.InvRow) (t : ℕ) (fp : LogispFail) : List Ev :=
  if rows.isEmpty then [Ev.respond true]
  else
    [Ev.createTable (StagingNames.logispTempTableId t)] ++
    match fp with
    | LogispFail.atInsert => [Ev.respond false]
    | _ =>
        ((chunksOf rows).map fun b =>
          Ev.insertRows (StagingNames.logispTempTableId t) b.length) ++
        [Ev.sleepMs 90000, Ev.merge MergeKind.logispInventory] ++
        match fp with
        | LogispFail.atMerge => [Ev.respond false]
        | _ => [Ev.deleteTable (StagingNames.logispTempTableId t), Ev.respond true]

/-- Failure points of the Shopify orders sync after fetching. -/
inductive ShopifyFail : Type
  | ok
  | atInsertOrders
  | atInsertItems
  | atMergeOrders
  | atMergeItems
deriving DecidableEq

/-- Trace of the staging-to-cleanup phase of `syncShopifyOrders`
(src/unnamed/part_000 lines 96-327); `t` is the `Date.now()` of the run. -/
def shopifyRunTrace (orders : List α) (items : List β) (t : ℕ) (fp : ShopifyFail) :
    List Ev :=
  if orders.isEmpty then [Ev.respond true]
  else
    [Ev.createTable (StagingNames.shopifyTempTableOrders t)] ++
    match fp with
    | ShopifyFail.atInsertOrders => [Ev.respond false]
    | _ =>
        ((chunksOf orders).map fun b =>
          Ev.insertRows (StagingNames.shopifyTempTableOrders t) b.length) ++
        [Ev.createTable (StagingNames.shopifyTempTableItems t)] ++
        match fp with
        | ShopifyFail.atInsertItems => [Ev.respond false]
        | _ =>
            ((chunksOf items).map fun b =>
              Ev.insertRows (StagingNames.shopifyTempTableItems t) b.length) ++
            [Ev.sleepMs 90000, Ev.merge MergeKind.shopifyOrders] ++
            match fp with
            | ShopifyFail.atMergeOrders => [Ev.respond false]
            | _ =>
                [Ev.merge MergeKind.shopifyItems] ++
                match fp with
                | ShopifyFail.atMergeItems => [Ev.respond false]
                | _ =>
                    [Ev.deleteTable (StagingNames.shopifyTempTableOrders t),
                     Ev.deleteTable (StagingNames.shopifyTempTableItems t),
                     Ev.respond true]

end Pipeline

/-! ## Claims -/

namespace Claims

open AmazonReports Forecaster Logisp Merge StagingNames Reports Pipeline

/-- A canonical order row with neutral field values, used as a concrete
staged row in closed statements. -/
def sampleReportOrder : ReportOrder :=
  { order_id := "O-1", channel := "Amazon-JP-1", account_name := "acct"
    order_number := "O-1", order_date := TimeVal.now, customer_name := "Amazon Customer"
    ship_state := "", ship_city := "", ship_postal_code := ""
    subtotal_amount := JSNum.fin 0, tax_amount := JSNum.fin 0
    shipping_amount := JSNum.fin 0, total_amount := JSNum.fin 0
    currency := "JPY", payment_status := "unknown", fulfillment_status := "unknown"
    created_at := TimeVal.now, updated_at := TimeVal.now
    line_item_id := "O-1-1", sku := "SKU-1", product_name := "商品"
    quantity := JSNum.fin 1, unit_price := JSNum.fin 0, line_total := JSNum.fin 0 }

/-- A concrete flat-file report: a header line and one data row whose
`quantity-purchased` field is the string `0`. -/
def c10Report : String :=
  "amazon-order-id\titem-price\tquantity-purchased\nA1-TEST\t100\t0"

/-- The account configuration used for the concrete report. -/
def c10Config : AccountConfig :=
  { channel := "Amazon-JP-1", accountName := "TestAccount" }

/-- Claim C10: the report canonicalizer divides the item price by the
parsed quantity-purchased with no zero-divisor guard, so a report row
whose quantity-purchased field is the string `0` yields a non-finite
`unit_price` (here `Infinity`), and the row carrying it is exactly what
the staging insert receives. -/
theorem c10_unit_price_division_by_zero :
    (parseReportData c10Report c10Config).map ReportOrder.unit_price = [JSNum.posInf] ∧
    (parseReportData c10Report c10Config).map ReportOrder.quantity = [JSNum.fin 0] ∧
    JSNum.isFinite JSNum.posInf = false ∧
    (chunksOf (parseReportData c10Report c10Config)).flatten
      = parseReportData c10Report c10Config := by
  refine ⟨by decide, by decide, rfl, chunksOf_join _⟩

/-- The concrete sale used for the boundary examples: 60 units sold in
30 days, `daily_avg_sales = 2`. -/
def c5Sale : SaleRow :=
  { master_sku := "SKU-1", product_name := "商品", total_sold := 60, daily_avg_sales := 2 }

/-- An inventory aggregate with a given available quantity and no
inbound stock. -/
def c5Inv (available : ℤ) : InvAgg :=
  { available := available, inbound := 0, total := available }

/-- Claim C5: for a SKU with positive sales rate, absent or zero
available stock is classified CRITICAL with `days_until_stockout = 0`
regardless of the rate; otherwise
`days_until_stockout = floor(available / daily_avg_sales)` with
`days ≤ 7` CRITICAL, `7 < days ≤ 14` WARNING and `days > 14` no alert —
in particular at rate 2: available 14 and 15 are CRITICAL, 28 is
WARNING, 30 yields no alert. -/
theorem c5_stockout_classification (sale : SaleRow) (agg : InvAgg)
    (hrate : 0 < sale.daily_avg_sales) :
    ((checkStockoutForSale sale none).map (fun a => (a.alert_level, a.days_until_stockout))
        = some (AlertLevel.critical, 0)) ∧
    (agg.available = 0 →
      (checkStockoutForSale sale (some agg)).map
          (fun a => (a.alert_level, a.days_until_stockout))
        = some (AlertLevel.critical, 0)) ∧
    (agg.available ≠ 0 →
      ((⌊(agg.available : ℚ) / sale.daily_avg_sales⌋ ≤ 7 →
          (checkStockoutForSale sale (some agg)).map
              (fun a => (a.alert_level, a.days_until_stockout))
            = some (AlertLevel.critical, ⌊(agg.available : ℚ) / sale.daily_avg_sales⌋)) ∧
       (7 < ⌊(agg.available : ℚ) / sale.daily_avg_sales⌋ →
          ⌊(agg.available : ℚ) / sale.daily_avg_sales⌋ ≤ 14 →
          (checkStockoutForSale sale (some agg)).map
              (fun a => (a.alert_level, a.days_until_stockout))
            = some (AlertLevel.warning, ⌊(agg.available : ℚ) / sale.daily_avg_sales⌋)) ∧
       (14 < ⌊(agg.available : ℚ) / sale.daily_avg_sales⌋ →
          checkStockoutForSale sale (some agg) = none))) ∧
    ((checkStockoutForSale c5Sale (some (c5Inv 14))).map
        (fun a => (a.alert_level, a.days_until_stockout))
      = some (AlertLevel.critical, 7)) ∧
    ((checkStockoutForSale c5Sale (some (c5Inv 15))).map
        (fun a => (a.alert_level, a.days_until_stockout))
      = some (AlertLevel.critical, 7)) ∧
    ((checkStockoutForSale c5Sale (some (c5Inv 28))).map
        (fun a => (a.alert_level, a.days_until_stockout))
      = some (AlertLevel.warning, 14)) ∧
    (checkStockoutForSale c5Sale (some (c5Inv 30)) = none) := by
  refine ⟨?_, ?_, ?_, ?_, ?_, ?_, ?_⟩
  · simp [checkStockoutForSale, depletedAlert]
  · intro h
    simp [checkStockoutForSale, depletedAlert, h]
  · intro h
    refine ⟨?_, ?_, ?_⟩
    · intro hd
      simp only [checkStockoutForSale, if_neg h, if_pos hd]
      rfl
    · intro hd₁ hd₂
      simp only [checkStockoutForSale, if_neg h]
      rw [if_neg (by omega), if_pos hd₂]
      rfl
    · intro hd
      simp only [checkStockoutForSale, if_neg h]
      rw [if_neg (by omega), if_neg (by omega)]
  · norm_num [checkStockoutForSale, c5Sale, c5Inv]
  · norm_num [checkStockoutForSale, c5Sale, c5Inv]
  · norm_num [checkStockoutForSale, c5Sale, c5Inv]
  · norm_num [checkStockoutForSale, c5Sale, c5Inv]

/-- Claim C5 witness: the theorem applied at the concrete rate-2 sale
and the 14-units aggregate. -/
theorem c5_stockout_classification_witness :
    (0 : ℚ) < c5Sale.daily_avg_sales ∧
    (checkStockoutForSale c5Sale (some (c5Inv 14))).map
        (fun a => (a.alert_level, a.days_until_stockout))
      = some (AlertLevel.critical, 7) :=
  ⟨by norm_num [c5Sale], (c5_stockout_classification c5Sale (c5Inv 14)
      (by norm_num [c5Sale])).2.2.2.1⟩

/-- A sale of 30 units in 30 days: `daily_avg_sales = 1`. -/
def c6Sale : SaleRow :=
  { master_sku := "SKU-C6", product_name := "商品", total_sold := 30, daily_avg_sales := 1 }

/-- Inventory aggregate with zero available units and 10 inbound. -/
def c6Inv : InvAgg := { available := 0, inbound := 10, total := 10 }

/-- Claim C6 counterexample: for a depleted SKU with inbound stock the
alert object carries `suggested_order_qty = ceil(rate × 30)` — the
inbound quantity is not subtracted, so the claimed formula
`ceil(rate × 30) − available − inbound` fails (30 versus 20). -/
theorem c6_counterexample :
    (checkStockoutForSale c6Sale (some c6Inv)).map Alert.suggested_order_qty = some 30 ∧
    (checkStockoutForSale c6Sale (some c6Inv)).map Alert.inbound_stock = some 10 ∧
    ⌈c6Sale.daily_avg_sales * 30⌉ - c6Inv.available - c6Inv.inbound = 20 ∧
    (30 : ℤ) ≠ 20 := by
  refine ⟨?_, ?_, ?_, by decide⟩
  · norm_num [checkStockoutForSale, depletedAlert, c6Sale, c6Inv]
  · norm_num [checkStockoutForSale, depletedAlert, c6Sale, c6Inv]
  · norm_num [c6Sale, c6Inv]

/-- Claim C6 as amended: for alerted SKUs with nonzero available stock
the suggested quantity is `ceil(rate × 30) − available − inbound`; on the
depleted branch (available zero or no inventory) it is `ceil(rate × 30)`
with nothing subtracted; both the persisted record and the Slack
rendering floor the value at zero. -/
theorem c6_suggested_order_qty (sale : SaleRow) (agg : InvAgg) (a : Alert)
    (hrate : 0 < sale.daily_avg_sales) :
    ((checkStockoutForSale sale none).map Alert.suggested_order_qty
        = some ⌈sale.daily_avg_sales * 30⌉) ∧
    (agg.available = 0 →
      (checkStockoutForSale sale (some agg)).map Alert.suggested_order_qty
        = some ⌈sale.daily_avg_sales * 30⌉) ∧
    (agg.available ≠ 0 → checkStockoutForSale sale (some agg) = some a →
      a.suggested_order_qty = ⌈sale.daily_avg_sales * 30⌉ - agg.available - agg.inbound) ∧
    ((alertToRecord a).suggested_order_qty = max 0 a.suggested_order_qty) ∧
    (slackSuggestedQty a = max 0 a.suggested_order_qty) := by
  refine ⟨?_, ?_, ?_, rfl, rfl⟩
  · simp [checkStockoutForSale, depletedAlert]
  · intro h
    simp [checkStockoutForSale, depletedAlert, h]
  · intro h hsome
    simp only [checkStockoutForSale, if_neg h] at hsome
    by_cases hd : ⌊(agg.available : ℚ) / sale.daily_avg_sales⌋ ≤ 7
    · rw [if_pos hd] at hsome
      cases hsome
      rfl
    · rw [if_neg hd] at hsome
      by_cases hd₂ : ⌊(agg.available : ℚ) / sale.daily_avg_sales⌋ ≤ 14
      · rw [if_pos hd₂] at hsome
        cases hsome
        rfl
      · rw [if_neg hd₂] at hsome
        exact absurd hsome (by simp)

/-- Claim C6 witness: the amended theorem applied at the depleted
concrete input of the counterexample. -/
theorem c6_suggested_order_qty_witness :
    (0 : ℚ) < c6Sale.daily_avg_sales ∧
    (checkStockoutForSale c6Sale (some c6Inv)).map Alert.suggested_order_qty
      = some ⌈c6Sale.daily_avg_sales * 30⌉ :=
  ⟨by norm_num [c6Sale],
    (c6_suggested_order_qty c6Sale c6Inv (depletedAlert c6Sale (some c6Inv))
      (by norm_num [c6Sale])).2.1 rfl⟩

/-- Product master with one case mapping: channel SKU `CASE-A` resolves
to master `MASTER-A` with 12 units per case. -/
def c8Pm : String → Option LogispProduct := fun s =>
  if s = "CASE-A" then some { master_sku := "MASTER-A", is_case_product := true, units_per_case := 12 }
  else none

/-- A raw inventory item: 5 case-units of `CASE-A`. -/
def c8Item : LogispItem := { skuField := "CASE-A", quantityField := 5 }

/-- The staging-table row the pipeline persists for `c8Item`. -/
def c8Staged : Logisp.InvStageRow :=
  { sku := "MASTER-A", location := "ロジスピ", location_type := "External"
    available_quantity := 60, reserved_quantity := 0, inbound_quantity := 0
    total_quantity := 60, last_updated := TimeVal.now, sync_status := "success" }

/-- Claim C8 counterexample: the canonical row converts 5 cases × 12 to
60 units under the master SKU and carries `original_sku`/`original_quantity`,
but the row actually persisted to the staging table (the projection of
lines 317-327, whose schema has no original-SKU or original-quantity
column) retains neither the channel SKU `CASE-A` nor the raw quantity 5
in any field — so the originals are not retained in what the pipeline
persists. -/
theorem c8_counterexample :
    (convertInventoryData [c8Item] c8Pm).map InvRow.available_quantity = [60] ∧
    (convertInventoryData [c8Item] c8Pm).map InvRow.original_sku = ["CASE-A"] ∧
    (convertInventoryData [c8Item] c8Pm).map InvRow.original_quantity = [5] ∧
    (convertInventoryData [c8Item] c8Pm).map Logisp.toStageRow = [c8Staged] ∧
    (c8Staged.sku ≠ "CASE-A" ∧ c8Staged.location ≠ "CASE-A" ∧
      c8Staged.location_type ≠ "CASE-A" ∧ c8Staged.sync_status ≠ "CASE-A") ∧
    (c8Staged.available_quantity ≠ 5 ∧ c8Staged.reserved_quantity ≠ 5 ∧
      c8Staged.inbound_quantity ≠ 5 ∧ c8Staged.total_quantity ≠ 5) := by
  decide

/-- Claim C8 as amended: for a mapped case product with
`units_per_case = k ≥ 1` the canonical row carries
`available_quantity = total_quantity = raw × k` under the master SKU and
retains the original SKU and raw quantity; the persisted staging row
keeps the converted figures (and master SKU) but drops the originals. -/
theorem c8_case_conversion (items : List LogispItem) (item : LogispItem)
    (pm : String → Option LogispProduct) (p : LogispProduct)
    (hmem : item ∈ items) (hsku : ¬ item.skuField = "")
    (hp : pm item.skuField = some p) (hcase : p.is_case_product = true)
    (hk : 1 ≤ p.units_per_case) :
    ∃ r, convertItem pm item = some r ∧
      r ∈ convertInventoryData items pm ∧
      r.sku = p.master_sku ∧
      r.available_quantity = item.quantityField * p.units_per_case ∧
      r.total_quantity = item.quantityField * p.units_per_case ∧
      r.original_sku = item.skuField ∧
      r.original_quantity = item.quantityField ∧
      (Logisp.toStageRow r).sku = p.master_sku ∧
      (Logisp.toStageRow r).available_quantity = item.quantityField * p.units_per_case ∧
      (Logisp.toStageRow r).total_quantity = item.quantityField * p.units_per_case := by
  by_cases hk1 : 1 < p.units_per_case
  · have hconv : convertItem pm item = some
        { sku := p.master_sku, location := "ロジスピ", location_type := "External"
          available_quantity := item.quantityField * p.units_per_case
          reserved_quantity := 0, inbound_quantity := 0
          total_quantity := item.quantityField * p.units_per_case
          last_updated := TimeVal.now, sync_status := "success"
          is_case_converted := true
          original_sku := item.skuField, original_quantity := item.quantityField } := by
      simp only [convertItem, if_neg hsku, hp]
      simp [hcase, hk1]
    exact ⟨_, hconv, List.mem_filterMap.mpr ⟨item, hmem, hconv⟩,
      rfl, rfl, rfl, rfl, rfl, rfl, rfl, rfl⟩
  · have hke : p.units_per_case = 1 := by omega
    have hconv : convertItem pm item = some
        { sku := p.master_sku, location := "ロジスピ", location_type := "External"
          available_quantity := item.quantityField
          reserved_quantity := 0, inbound_quantity := 0
          total_quantity := item.quantityField
          last_updated := TimeVal.now, sync_status := "success"
          is_case_converted := false
          original_sku := item.skuField, original_quantity := item.quantityField } := by
      simp only [convertItem, if_neg hsku, hp]
      simp [hcase, hk1]
    refine ⟨_, hconv, List.mem_filterMap.mpr ⟨item, hmem, hconv⟩,
      rfl, ?_, ?_, rfl, rfl, rfl, ?_, ?_⟩ <;>
    · show item.quantityField = item.quantityField * p.units_per_case
      rw [hke, mul_one]

/-- Claim C8 witness: the amended theorem at the concrete 5-case item. -/
theorem c8_case_conversion_witness :
    (c8Item ∈ [c8Item] ∧ ¬ c8Item.skuField = "" ∧
      c8Pm c8Item.skuField
        = some { master_sku := "MASTER-A", is_case_product := true, units_per_case := 12 }) ∧
    ∃ r, convertItem c8Pm c8Item = some r ∧
      r ∈ convertInventoryData [c8Item] c8Pm ∧
      r.sku = "MASTER-A" ∧
      r.available_quantity = c8Item.quantityField * 12 ∧
      r.total_quantity = c8Item.quantityField * 12 ∧
      r.original_sku = c8Item.skuField ∧
      r.original_quantity = c8Item.quantityField ∧
      (Logisp.toStageRow r).sku = "MASTER-A" ∧
      (Logisp.toStageRow r).available_quantity = c8Item.quantityField * 12 ∧
      (Logisp.toStageRow r).total_quantity = c8Item.quantityField * 12 :=
  ⟨⟨by decide, by decide, by decide⟩,
    c8_case_conversion [c8Item] c8Item c8Pm
      { master_sku := "MASTER-A", is_case_product := true, units_per_case := 12 }
      (by decide) (by decide) (by decide) (by decide) (by decide)⟩

theorem convertItem_isSome (pm : String → Option LogispProduct) (i : LogispItem) :
    (convertItem pm i).isSome = decide (¬ i.skuField = "") := by
  by_cases h : i.skuField = ""
  · simp [convertItem, h]
  · unfold convertItem
    rw [if_neg h]
    cases pm i.skuField <;> simp [h]

theorem convertItemV0_isSome (pm : String → Option LogispProduct) (i : LogispItem) :
    (convertItemV0 pm i).isSome = decide (¬ i.skuField = "") := by
  by_cases h : i.skuField = ""
  · simp [convertItemV0, h]
  · unfold convertItemV0
    rw [if_neg h]
    simp [h]

theorem convertInventoryData_length (items : List LogispItem)
    (pm : String → Option LogispProduct) :
    (convertInventoryData items pm).length
      = items.countP (fun i => decide (¬ i.skuField = "")) := by
  induction items with
  | nil => rfl
  | cons i t ih =>
      unfold convertInventoryData at ih ⊢
      rw [List.filterMap_cons, List.countP_cons]
      have hs := convertItem_isSome pm i
      cases hsome : convertItem pm i with
      | none => rw [hsome] at hs; simp only [Option.isSome_none] at hs; rw [← hs]; simpa using ih
      | some r =>
          rw [hsome] at hs; simp only [Option.isSome_some] at hs
          rw [← hs]
          simp [List.length_cons, ih]

theorem convertInventoryDataV0_length (items : List LogispItem)
    (pm : String → Option LogispProduct) :
    (convertInventoryDataV0 items pm).length
      = items.countP (fun i => decide (¬ i.skuField = "")) := by
  induction items with
  | nil => rfl
  | cons i t ih =>
      unfold convertInventoryDataV0 at ih ⊢
      rw [List.filterMap_cons, List.countP_cons]
      have hs := convertItemV0_isSome pm i
      cases hsome : convertItemV0 pm i with
      | none => rw [hsome] at hs; simp only [Option.isSome_none] at hs; rw [← hs]; simpa using ih
      | some r =>
          rw [hsome] at hs; simp only [Option.isSome_some] at hs
          rw [← hs]
          simp [List.length_cons, ih]

/-- The passthrough row emitted for an unmapped channel SKU. -/
def unmappedRow (item : LogispItem) : InvRow :=
  { sku := item.skuField, location := "ロジスピ", location_type := "External"
    available_quantity := item.quantityField, reserved_quantity := 0
    inbound_quantity := 0, total_quantity := item.quantityField
    last_updated := TimeVal.now, sync_status := "success"
    is_case_converted := false
    original_sku := item.skuField, original_quantity := item.quantityField }

/-- Claim C9: an inventory record whose channel SKU has no mapping is
not dropped: both the current and the older revision emit it under the
original channel SKU with the quantity unconverted and
`is_case_converted = false`; the current revision additionally logs the
distinct unmapped-SKU warning; and in both revisions the output row
count equals the count of input records that carry a SKU. -/
theorem c9_unmapped_passthrough (items : List LogispItem) (item : LogispItem)
    (pm : String → Option LogispProduct)
    (hmem : item ∈ items) (hsku : ¬ item.skuField = "")
    (hp : pm item.skuField = none) :
    (convertItem pm item = some (unmappedRow item) ∧
      unmappedRow item ∈ convertInventoryData items pm) ∧
    (convertItemV0 pm item = some (unmappedRow item)) ∧
    (item.skuField ∈ unmappedSkuWarnings items pm) ∧
    ((convertInventoryData items pm).length
      = items.countP (fun i => decide (¬ i.skuField = ""))) ∧
    ((convertInventoryDataV0 items pm).length
      = items.countP (fun i => decide (¬ i.skuField = ""))) := by
  have hconv : convertItem pm item = some (unmappedRow item) := by
    simp [convertItem, hsku, hp, unmappedRow]
  have hconv0 : convertItemV0 pm item = some (unmappedRow item) := by
    simp [convertItemV0, hsku, hp, unmappedRow, jsOrStr]
  refine ⟨⟨hconv, List.mem_filterMap.mpr ⟨item, hmem, hconv⟩⟩, hconv0, ?_,
    convertInventoryData_length items pm, convertInventoryDataV0_length items pm⟩
  unfold unmappedSkuWarnings
  refine List.mem_filterMap.mpr ⟨item, hmem, ?_⟩
  rw [if_pos ⟨hsku, by rw [hp]; rfl⟩]

/-- Claim C9 witness: the theorem at a concrete unmapped item. -/
theorem c9_unmapped_passthrough_witness :
    (({ skuField := "NO-MAP", quantityField := 7 } : LogispItem)
        ∈ [({ skuField := "NO-MAP", quantityField := 7 } : LogispItem)] ∧
      c8Pm "NO-MAP" = none) ∧
    convertItem c8Pm { skuField := "NO-MAP", quantityField := 7 }
      = some (unmappedRow { skuField := "NO-MAP", quantityField := 7 }) :=
  ⟨⟨by decide, by decide⟩,
    (c9_unmapped_passthrough [{ skuField := "NO-MAP", quantityField := 7 }]
      { skuField := "NO-MAP", quantityField := 7 } c8Pm
      (by decide) (by decide) (by decide)).1.1⟩

/-- A row for `mergeInventoryStatement` instances. -/
def c2Row : Logisp.InvStageRow :=
  { sku := "M-1", location := "ロジスピ", location_type := "External"
    available_quantity := 3, reserved_quantity := 0, inbound_quantity := 0
    total_quantity := 3, last_updated := TimeVal.now, sync_status := "success" }

/-- Claim C2: re-applying each of the three keyed merges (orders keyed by
order_id+channel, line items by order_id+channel+line_item_id, inventory
by sku+location) with the same staging rows to the store produced by a
first successful application changes no row except the `updated_at`
bookkeeping column of the orders merge, and leaves the multiset of keys
unchanged — in particular it never inserts a duplicate key. -/
theorem c2_merge_idempotent :
    (∀ (now₁ now₂ : ℕ) (S : List TempOrderRow) (T T₁ : List OrderRow),
        mergeOrdersStatement now₁ S T = some T₁ →
        (stateAfter (mergeOrdersStatement now₂ S T₁) T₁).map stripUpdatedAt
            = T₁.map stripUpdatedAt ∧
        (stateAfter (mergeOrdersStatement now₂ S T₁) T₁).map orderKey
            = T₁.map orderKey) ∧
    (∀ (S : List TempOrderRow) (T T₁ : List ItemRow),
        mergeItemsStatement S T = some T₁ →
        stateAfter (mergeItemsStatement S T₁) T₁ = T₁) ∧
    (∀ (S T T₁ : List Logisp.InvStageRow),
        mergeInventoryStatement S T = some T₁ →
        stateAfter (mergeInventoryStatement S T₁) T₁ = T₁) := by
  refine ⟨?_, ?_, ?_⟩
  · intro now₁ now₂ S T T₁ h1
    exact ⟨mergeRun_again orderKey (ordersUpd now₁) (ordersUpd now₂) id id stripUpdatedAt
        (fun _ _ => rfl) (fun _ => rfl) (fun _ _ => rfl) (fun _ => rfl) _ T T₁ h1,
      mergeRun_again_keys orderKey (ordersUpd now₁) (ordersUpd now₂) id id stripUpdatedAt
        (fun _ _ => rfl) (fun _ => rfl) (fun _ _ => rfl) (fun _ => rfl) (fun _ => rfl)
        _ T T₁ h1⟩
  · intro S T T₁ h1
    have := mergeRun_again itemKey itemsUpd itemsUpd id id id
      (fun _ _ => rfl) (fun _ => rfl) (fun _ _ => rfl) (fun _ => rfl) _ T T₁ h1
    simpa using this
  · intro S T T₁ h1
    have := mergeRun_again invKey invUpd invUpd id id id
      (fun _ _ => rfl) (fun _ => rfl) (fun _ _ => rfl) (fun _ => rfl) _ T T₁ h1
    simpa using this

/-- Claim C2 witness: a first inventory merge of one staging row into an
empty store succeeds and inserts the row; the theorem then gives that
re-merging the same staging row leaves the store unchanged. -/
theorem c2_merge_idempotent_witness :
    mergeInventoryStatement [c2Row] [] = some [c2Row] ∧
    stateAfter (mergeInventoryStatement [c2Row] [c2Row]) [c2Row] = [c2Row] :=
  ⟨by decide, c2_merge_idempotent.2.2 [c2Row] [] [c2Row] (by decide)⟩

/-- Claim C3 counterexample: two distinct Amazon orders sync runs (they
fetch different order lists) both create the staging table under the
module-level constant name `orders_temp_amazon`, so their staging-area
names are not distinct and are not derived from a run-scoped token. -/
theorem c3_counterexample :
    createdTables (amazonRunTrace [sampleReportOrder] AmazonFail.ok)
      = [amazonOrdersTempTableId] ∧
    createdTables (amazonRunTrace [sampleReportOrder, sampleReportOrder] AmazonFail.ok)
      = [amazonOrdersTempTableId] ∧
    ([sampleReportOrder] : List ReportOrder) ≠ [sampleReportOrder, sampleReportOrder] := by
  decide

theorem any_map_of_all_false {α β : Type _} {f : α → β} {p : β → Bool}
    (h : ∀ a, p (f a) = false) (l : List α) : (l.map f).any p = false := by
  induction l with
  | nil => rfl
  | cons a t ih => simp [h, ih]

theorem insertBatches_no_delete {α : Type _} (name : String) (l : List (List α)) :
    ((l.map fun b => Ev.insertRows name b.length).any Ev.isDelete) = false :=
  any_map_of_all_false (fun _ => rfl) l

theorem insertBatches_no_merge {α : Type _} (name : String) (l : List (List α)) :
    ((l.map fun b => Ev.insertRows name b.length).any Ev.isMerge) = false :=
  any_map_of_all_false (fun _ => rfl) l

/-- Claim C3 as amended: every Amazon orders run stages into the one
fixed table name, while the Logisp and Shopify staging names are derived
from the millisecond `Date.now()` value alone (no random suffix) and are
distinct exactly when those timestamps differ. -/
theorem c3_staging_names :
    (∀ (orders : List ReportOrder) (fp : AmazonFail), orders ≠ [] →
        createdTables (amazonRunTrace orders fp) = [amazonOrdersTempTableId]) ∧
    (∀ t₁ t₂ : ℕ, logispTempTableId t₁ = logispTempTableId t₂ ↔ t₁ = t₂) ∧
    (∀ t₁ t₂ : ℕ, shopifyTempTableOrders t₁ = shopifyTempTableOrders t₂ ↔ t₁ = t₂) ∧
    (∀ t₁ t₂ : ℕ, shopifyTempTableItems t₁ = shopifyTempTableItems t₂ ↔ t₁ = t₂) := by
  refine ⟨?_, ?_, ?_, ?_⟩
  · intro orders fp h
    have hne : ¬ orders.isEmpty = true := by simpa [List.isEmpty_iff] using h
    cases fp <;>
      simp [amazonRunTrace, hne, createdTables, List.filterMap_append, List.filterMap_map,
        Function.comp_def]
  · exact fun t₁ t₂ => ⟨logispTempTableId_inj t₁ t₂, fun h => by rw [h]⟩
  · exact fun t₁ t₂ => ⟨shopifyTempTableOrders_inj t₁ t₂, fun h => by rw [h]⟩
  · exact fun t₁ t₂ => ⟨shopifyTempTableItems_inj t₁ t₂, fun h => by rw [h]⟩

/-- Claim C3 witness: the amended theorem at a concrete run and concrete
timestamps. -/
theorem c3_staging_names_witness :
    ([sampleReportOrder] : List ReportOrder) ≠ [] ∧
    createdTables (amazonRunTrace [sampleReportOrder] AmazonFail.atMergeOrders)
      = [amazonOrdersTempTableId] ∧
    (logispTempTableId 1700000000000 = logispTempTableId 1700000000001 ↔
      (1700000000000 : ℕ) = 1700000000001) :=
  ⟨by decide, c3_staging_names.1 [sampleReportOrder] AmazonFail.atMergeOrders (by decide),
    c3_staging_names.2.1 1700000000000 1700000000001⟩

theorem takeWhile_append_all {α : Type _} (p : α → Bool) (xs ys : List α)
    (h : ∀ x ∈ xs, p x = true) :
    (xs ++ ys).takeWhile p = xs ++ ys.takeWhile p := by
  induction xs with
  | nil => rfl
  | cons a t ih =>
      simp only [List.cons_append, List.takeWhile_cons, h a (by simp), if_true]
      rw [ih fun x hx => h x (by simp [hx])]

/-- After-the-last-create cleanup detection on a trace of the shape
`pre ++ createTable name :: mid` with no create in `mid`: the staging
area is cleaned up exactly when `mid` deletes a table. -/
theorem stagingCleanedUp_split (pre mid : List Ev) (name : String)
    (hmid : ∀ e ∈ mid, e.isCreate = false) :
    stagingCleanedUp (pre ++ Ev.createTable name :: mid) = mid.any Ev.isDelete := by
  unfold stagingCleanedUp eventsAfterLastCreate
  rw [List.reverse_append, List.reverse_cons, List.append_assoc, List.singleton_append,
    takeWhile_append_all _ (mid.reverse) _
      (fun e he => by simp [List.mem_reverse] at he; simp [hmid e he]),
    List.takeWhile_cons]
  simp [Ev.isCreate, List.any_reverse]

/-- A canonical inventory row used for concrete Logisp run traces. -/
def c1InvRow : InvRow :=
  { sku := "M-1", location := "ロジスピ", location_type := "External"
    available_quantity := 3, reserved_quantity := 0, inbound_quantity := 0
    total_quantity := 3, last_updated := TimeVal.now, sync_status := "success"
    is_case_converted := false, original_sku := "M-1", original_quantity := 3 }

/-- Claim C1 counterexample: when the merge phase throws, the run does
not delete the staging table it created — the trace reaches the merge
(the merge statement is issued) yet contains no delete after the staging
table was created, in both the Amazon orders sync and the Logisp
inventory sync. -/
theorem c1_counterexample :
    stagingCleanedUp (amazonRunTrace [sampleReportOrder] AmazonFail.atMergeOrders) = false ∧
    (amazonRunTrace [sampleReportOrder] AmazonFail.atMergeOrders).any Ev.isMerge = true ∧
    stagingCleanedUp (logispRunTrace [c1InvRow] 0 LogispFail.atMerge) = false ∧
    (logispRunTrace [c1InvRow] 0 LogispFail.atMerge).any Ev.isMerge = true := by
  decide

/-- Claim C1 as amended: the staging table is deleted only on the fully
successful path; on every modelled failure path after staging (a batch
insert throw or a merge throw) the run ends without deleting the staging
area it created, in all three pipelines. -/
theorem c1_cleanup_only_on_success :
    (∀ (orders : List ReportOrder) (fp : AmazonFail), orders ≠ [] →
        (stagingCleanedUp (amazonRunTrace orders fp) = true ↔ fp = AmazonFail.ok)) ∧
    (∀ (rows : List InvRow) (t : ℕ) (fp : LogispFail), rows ≠ [] →
        (stagingCleanedUp (logispRunTrace rows t fp) = true ↔ fp = LogispFail.ok)) ∧
    (∀ {α β : Type} (orders : List α) (items : List β) (t : ℕ) (fp : ShopifyFail),
        orders ≠ [] →
        (stagingCleanedUp (shopifyRunTrace orders items t fp) = true ↔ fp = ShopifyFail.ok)) := by
  refine ⟨?_, ?_, ?_⟩
  · intro orders fp h
    have hne : ¬ orders.isEmpty = true := by simpa [List.isEmpty_iff] using h
    cases fp
    · rw [show amazonRunTrace orders AmazonFail.ok
          = [Ev.deleteTable amazonOrdersTempTableId]
            ++ Ev.createTable amazonOrdersTempTableId ::
              (((chunksOf orders).map fun b =>
                  Ev.insertRows amazonOrdersTempTableId b.length)
                ++ [Ev.sleepMs 90000, Ev.merge MergeKind.amazonOrders,
                    Ev.merge MergeKind.amazonItems,
                    Ev.deleteTable amazonOrdersTempTableId, Ev.respond true])
          from by simp [amazonRunTrace, hne]]
      rw [stagingCleanedUp_split _ _ _ (fun e he => by
        rcases List.mem_append.mp he with hm | hm
        · obtain ⟨b, _, rfl⟩ := List.mem_map.mp hm
          rfl
        · simp only [List.mem_cons, List.not_mem_nil, or_false] at hm
          rcases hm with rfl | rfl | rfl | rfl | rfl <;> rfl)]
      simp [List.any_append, insertBatches_no_delete, Ev.isDelete]
    · rw [show amazonRunTrace orders AmazonFail.atInsert
          = [Ev.deleteTable amazonOrdersTempTableId]
            ++ Ev.createTable amazonOrdersTempTableId :: [Ev.respond false]
          from by simp [amazonRunTrace, hne]]
      rw [stagingCleanedUp_split _ _ _ (fun e he => by
        simp only [List.mem_singleton] at he
        subst he; rfl)]
      simp [Ev.isDelete]
    · rw [show amazonRunTrace orders AmazonFail.atMergeOrders
          = [Ev.deleteTable amazonOrdersTempTableId]
            ++ Ev.createTable amazonOrdersTempTableId ::
              (((chunksOf orders).map fun b =>
                  Ev.insertRows amazonOrdersTempTableId b.length)
                ++ [Ev.sleepMs 90000, Ev.merge MergeKind.amazonOrders, Ev.respond false])
          from by simp [amazonRunTrace, hne]]
      rw [stagingCleanedUp_split _ _ _ (fun e he => by
        rcases List.mem_append.mp he with hm | hm
        · obtain ⟨b, _, rfl⟩ := List.mem_map.mp hm
          rfl
        · simp only [List.mem_cons, List.not_mem_nil, or_false] at hm
          rcases hm with rfl | rfl | rfl <;> rfl)]
      simp [List.any_append, insertBatches_no_delete, Ev.isDelete]
    · rw [show amazonRunTrace orders AmazonFail.atMergeItems
          = [Ev.deleteTable amazonOrdersTempTableId]
            ++ Ev.createTable amazonOrdersTempTableId ::
              (((chunksOf orders).map fun b =>
                  Ev.insertRows amazonOrdersTempTableId b.length)
                ++ [Ev.sleepMs 90000, Ev.merge MergeKind.amazonOrders,
                    Ev.merge MergeKind.amazonItems, Ev.respond false])
          from by simp [amazonRunTrace, hne]]
      rw [stagingCleanedUp_split _ _ _ (fun e he => by
        rcases List.mem_append.mp he with hm | hm
        · obtain ⟨b, _, rfl⟩ := List.mem_map.mp hm
          rfl
        · simp only [List.mem_cons, List.not_mem_nil, or_false] at hm
          rcases hm with rfl | rfl | rfl | rfl <;> rfl)]
      simp [List.any_append, insertBatches_no_delete, Ev.isDelete]
  · intro rows t fp h
    have hne : ¬ rows.isEmpty = true := by simpa [List.isEmpty_iff] using h
    cases fp
    · rw [show logispRunTrace rows t LogispFail.ok
          = ([] : List Ev)
            ++ Ev.createTable (logispTempTableId t) ::
              (((chunksOf rows).map fun b =>
                  Ev.insertRows (logispTempTableId t) b.length)
                ++ [Ev.sleepMs 90000, Ev.merge MergeKind.logispInventory,
                    Ev.deleteTable (logispTempTableId t), Ev.respond true])
          from by simp [logispRunTrace, hne]]
      rw [stagingCleanedUp_split _ _ _ (fun e he => by
        rcases List.mem_append.mp he with hm | hm
        · obtain ⟨b, _, rfl⟩ := List.mem_map.mp hm
          rfl
        · simp only [List.mem_cons, List.not_mem_nil, or_false] at hm
          rcases hm with rfl | rfl | rfl | rfl <;> rfl)]
      simp [List.any_append, insertBatches_no_delete, Ev.isDelete]
    · rw [show logispRunTrace rows t LogispFail.atInsert
          = ([] : List Ev)
            ++ Ev.createTable (logispTempTableId t) :: [Ev.respond false]
          from by simp [logispRunTrace, hne]]
      rw [stagingCleanedUp_split _ _ _ (fun e he => by
        simp only [List.mem_singleton] at he
        subst he; rfl)]
      simp [Ev.isDelete]
    · rw [show logispRunTrace rows t LogispFail.atMerge
          = ([] : List Ev)
            ++ Ev.createTable (logispTempTableId t) ::
              (((chunksOf rows).map fun b =>
                  Ev.insertRows (logispTempTableId t) b.length)
                ++ [Ev.sleepMs 90000, Ev.merge MergeKind.logispInventory, Ev.respond false])
          from by simp [logispRunTrace, hne]]
      rw [stagingCleanedUp_split _ _ _ (fun e he => by
        rcases List.mem_append.mp he with hm | hm
        · obtain ⟨b, _, rfl⟩ := List.mem_map.mp hm
          rfl
        · simp only [List.mem_cons, List.not_mem_nil, or_false] at hm
          rcases hm with rfl | rfl | rfl <;> rfl)]
      simp [List.any_append, insertBatches_no_delete, Ev.isDelete]
  · intro α β orders items t fp h
    have hne : ¬ orders.isEmpty = true := by simpa [List.isEmpty_iff] using h
    cases fp
    · rw [show shopifyRunTrace orders items t ShopifyFail.ok
          = ([Ev.createTable (shopifyTempTableOrders t)]
              ++ (chunksOf orders).map fun b =>
                  Ev.insertRows (shopifyTempTableOrders t) b.length)
            ++ Ev.createTable (shopifyTempTableItems t) ::
              (((chunksOf items).map fun b =>
                  Ev.insertRows (shopifyTempTableItems t) b.length)
                ++ [Ev.sleepMs 90000, Ev.merge MergeKind.shopifyOrders,
                    Ev.merge MergeKind.shopifyItems,
                    Ev.deleteTable (shopifyTempTableOrders t),
                    Ev.deleteTable (shopifyTempTableItems t), Ev.respond true])
          from by simp [shopifyRunTrace, hne]]
      rw [stagingCleanedUp_split _ _ _ (fun e he => by
        rcases List.mem_append.mp he with hm | hm
        · obtain ⟨b, _, rfl⟩ := List.mem_map.mp hm
          rfl
        · simp only [List.mem_cons, List.not_mem_nil, or_false] at hm
          rcases hm with rfl | rfl | rfl | rfl | rfl | rfl <;> rfl)]
      simp [List.any_append, insertBatches_no_delete, Ev.isDelete]
    · rw [show shopifyRunTrace orders items t ShopifyFail.atInsertOrders
          = ([] : List Ev)
            ++ Ev.createTable (shopifyTempTableOrders t) :: [Ev.respond false]
          from by simp [shopifyRunTrace, hne]]
      rw [stagingCleanedUp_split _ _ _ (fun e he => by
        simp only [List.mem_singleton] at he
        subst he; rfl)]
      simp [Ev.isDelete]
    · rw [show shopifyRunTrace orders items t ShopifyFail.atInsertItems
          = ([Ev.createTable (shopifyTempTableOrders t)]
              ++ (chunksOf orders).map fun b =>
                  Ev.insertRows (shopifyTempTableOrders t) b.length)
            ++ Ev.createTable (shopifyTempTableItems t) :: [Ev.respond false]
          from by simp [shopifyRunTrace, hne]]
      rw [stagingCleanedUp_split _ _ _ (fun e he => by
        simp only [List.mem_singleton] at he
        subst he; rfl)]
      simp [Ev.isDelete]
    · rw [show shopifyRunTrace orders items t ShopifyFail.atMergeOrders
          = ([Ev.createTable (shopifyTempTableOrders t)]
              ++ (chunksOf orders).map fun b =>
                  Ev.insertRows (shopifyTempTableOrders t) b.length)
            ++ Ev.createTable (shopifyTempTableItems t) ::
              (((chunksOf items).map fun b =>
                  Ev.insertRows (shopifyTempTableItems t) b.length)
                ++ [Ev.sleepMs 90000, Ev.merge MergeKind.shopifyOrders, Ev.respond false])
          from by simp [shopifyRunTrace, hne]]
      rw [stagingCleanedUp_split _ _ _ (fun e he => by
        rcases List.mem_append.mp he with hm | hm
        · obtain ⟨b, _, rfl⟩ := List.mem_map.mp hm
          rfl
        · simp only [List.mem_cons, List.not_mem_nil, or_false] at hm
          rcases hm with rfl | rfl | rfl <;> rfl)]
      simp [List.any_append, insertBatches_no_delete, Ev.isDelete]
    · rw [show shopifyRunTrace orders items t ShopifyFail.atMergeItems
          = ([Ev.createTable (shopifyTempTableOrders t)]
              ++ (chunksOf orders).map fun b =>
                  Ev.insertRows (shopifyTempTableOrders t) b.length)
            ++ Ev.createTable (shopifyTempTableItems t) ::
              (((chunksOf items).map fun b =>
                  Ev.insertRows (shopifyTempTableItems t) b.length)
                ++ [Ev.sleepMs 90000, Ev.merge MergeKind.shopifyOrders,
                    Ev.merge MergeKind.shopifyItems, Ev.respond false])
          from by simp [shopifyRunTrace, hne]]
      rw [stagingCleanedUp_split _ _ _ (fun e he => by
        rcases List.mem_append.mp he with hm | hm
        · obtain ⟨b, _, rfl⟩ := List.mem_map.mp hm
          rfl
        · simp only [List.mem_cons, List.not_mem_nil, or_false] at hm
          rcases hm with rfl | rfl | rfl | rfl <;> rfl)]
      simp [List.any_append, insertBatches_no_delete, Ev.isDelete]

/-- Claim C1 witness: the amended theorem at a one-row successful run
and at the concrete merge-failure run of the counterexample input. -/
theorem c1_cleanup_only_on_success_witness :
    ([sampleReportOrder] : List ReportOrder) ≠ [] ∧
    (stagingCleanedUp (amazonRunTrace [sampleReportOrder] AmazonFail.ok) = true ↔
      AmazonFail.ok = AmazonFail.ok) :=
  ⟨by decide,
    c1_cleanup_only_on_success.1 [sampleReportOrder] AmazonFail.ok (by decide)⟩

/-- Claim C4: in every modelled execution trace of the three pipelines
that issues a merge statement, the trace splits at the fixed 90-second
sleep, all staging inserts precede it and all merges follow it — the
merge is never issued before the 90-second wait after the last staging
write. -/
theorem c4_merge_after_wait :
    (∀ (orders : List ReportOrder) (fp : AmazonFail),
        mergeAfterWait (amazonRunTrace orders fp)) ∧
    (∀ (rows : List InvRow) (t : ℕ) (fp : LogispFail),
        mergeAfterWait (logispRunTrace rows t fp)) ∧
    (∀ {α β : Type} (orders : List α) (items : List β) (t : ℕ) (fp : ShopifyFail),
        mergeAfterWait (shopifyRunTrace orders items t fp)) := by
  refine ⟨?_, ?_, ?_⟩
  · intro orders fp
    by_cases hE : orders.isEmpty = true
    · intro hm
      obtain ⟨e, he, hme⟩ := hm
      simp [amazonRunTrace, hE] at he
      subst he
      simp [Ev.isMerge] at hme
    · cases fp with
      | atInsert =>
          intro hm
          obtain ⟨e, he, hme⟩ := hm
          simp [amazonRunTrace, hE] at he
          rcases he with rfl | rfl | rfl <;> simp [Ev.isMerge] at hme
      | ok =>
          intro _
          refine ⟨[Ev.deleteTable amazonOrdersTempTableId,
              Ev.createTable amazonOrdersTempTableId]
              ++ ((chunksOf orders).map fun b =>
                  Ev.insertRows amazonOrdersTempTableId b.length),
            [Ev.merge MergeKind.amazonOrders, Ev.merge MergeKind.amazonItems,
              Ev.deleteTable amazonOrdersTempTableId, Ev.respond true], ?_, ?_, ?_⟩
          · simp [amazonRunTrace, hE]
          · intro e he
            rcases List.mem_append.mp he with hm | hm
            · simp only [List.mem_cons, List.not_mem_nil, or_false] at hm
              rcases hm with rfl | rfl <;> rfl
            · obtain ⟨b, _, rfl⟩ := List.mem_map.mp hm
              rfl
          · intro e he
            simp only [List.mem_cons, List.not_mem_nil, or_false] at he
            rcases he with rfl | rfl | rfl | rfl <;> rfl
      | atMergeOrders =>
          intro _
          refine ⟨[Ev.deleteTable amazonOrdersTempTableId,
              Ev.createTable amazonOrdersTempTableId]
              ++ ((chunksOf orders).map fun b =>
                  Ev.insertRows amazonOrdersTempTableId b.length),
            [Ev.merge MergeKind.amazonOrders, Ev.respond false], ?_, ?_, ?_⟩
          · simp [amazonRunTrace, hE]
          · intro e he
            rcases List.mem_append.mp he with hm | hm
            · simp only [List.mem_cons, List.not_mem_nil, or_false] at hm
              rcases hm with rfl | rfl <;> rfl
            · obtain ⟨b, _, rfl⟩ := List.mem_map.mp hm
              rfl
          · intro e he
            simp only [List.mem_cons, List.not_mem_nil, or_false] at he
            rcases he with rfl | rfl <;> rfl
      | atMergeItems =>
          intro _
          refine ⟨[Ev.deleteTable amazonOrdersTempTableId,
              Ev.createTable amazonOrdersTempTableId]
              ++ ((chunksOf orders).map fun b =>
                  Ev.insertRows amazonOrdersTempTableId b.length),
            [Ev.merge MergeKind.amazonOrders, Ev.merge MergeKind.amazonItems,
              Ev.respond false], ?_, ?_, ?_⟩
          · simp [amazonRunTrace, hE]
          · intro e he
            rcases List.mem_append.mp he with hm | hm
            · simp only [List.mem_cons, List.not_mem_nil, or_false] at hm
              rcases hm with rfl | rfl <;> rfl
            · obtain ⟨b, _, rfl⟩ := List.mem_map.mp hm
              rfl
          · intro e he
            simp only [List.mem_cons, List.not_mem_nil, or_false] at he
            rcases he with rfl | rfl | rfl <;> rfl
  · intro rows t fp
    by_cases hE : rows.isEmpty = true
    · intro hm
      obtain ⟨e, he, hme⟩ := hm
      simp [logispRunTrace, hE] at he
      subst he
      simp [Ev.isMerge] at hme
    · cases fp with
      | atInsert =>
          intro hm
          obtain ⟨e, he, hme⟩ := hm
          simp [logispRunTrace, hE] at he
          rcases he with rfl | rfl <;> simp [Ev.isMerge] at hme
      | ok =>
          intro _
          refine ⟨Ev.createTable (logispTempTableId t)
              :: ((chunksOf rows).map fun b =>
                  Ev.insertRows (logispTempTableId t) b.length),
            [Ev.merge MergeKind.logispInventory,
              Ev.deleteTable (logispTempTableId t), Ev.respond true], ?_, ?_, ?_⟩
          · simp [logispRunTrace, hE]
          · intro e he
            simp only [List.mem_cons] at he
            rcases he with rfl | hm
            · rfl
            · obtain ⟨b, _, rfl⟩ := List.mem_map.mp hm
              rfl
          · intro e he
            simp only [List.mem_cons, List.not_mem_nil, or_false] at he
            rcases he with rfl | rfl | rfl <;> rfl
      | atMerge =>
          intro _
          refine ⟨Ev.createTable (logispTempTableId t)
              :: ((chunksOf rows).map fun b =>
                  Ev.insertRows (logispTempTableId t) b.length),
            [Ev.merge MergeKind.logispInventory, Ev.respond false], ?_, ?_, ?_⟩
          · simp [logispRunTrace, hE]
          · intro e he
            simp only [List.mem_cons] at he
            rcases he with rfl | hm
            · rfl
            · obtain ⟨b, _, rfl⟩ := List.mem_map.mp hm
              rfl
          · intro e he
            simp only [List.mem_cons, List.not_mem_nil, or_false] at he
            rcases he with rfl | rfl <;> rfl
  · intro α β orders items t fp
    by_cases hE : orders.isEmpty = true
    · intro hm
      obtain ⟨e, he, hme⟩ := hm
      simp [shopifyRunTrace, hE] at he
      subst he
      simp [Ev.isMerge] at hme
    · cases fp with
      | atInsertOrders =>
          intro hm
          obtain ⟨e, he, hme⟩ := hm
          simp [shopifyRunTrace, hE] at he
          rcases he with rfl | rfl <;> simp [Ev.isMerge] at hme
      | atInsertItems =>
          intro hm
          obtain ⟨e, he, hme⟩ := hm
          simp [shopifyRunTrace, hE] at he
          rcases he with rfl | (⟨b, _, rfl⟩ | rfl | rfl) <;> simp [Ev.isMerge] at hme
      | ok =>
          intro _
          refine ⟨Ev.createTable (shopifyTempTableOrders t)
              :: (((chunksOf orders).map fun b =>
                    Ev.insertRows (shopifyTempTableOrders t) b.length)
                ++ Ev.createTable (shopifyTempTableItems t)
                  :: ((chunksOf items).map fun b =>
                      Ev.insertRows (shopifyTempTableItems t) b.length)),
            [Ev.merge MergeKind.shopifyOrders, Ev.merge MergeKind.shopifyItems,
              Ev.deleteTable (shopifyTempTableOrders t),
              Ev.deleteTable (shopifyTempTableItems t), Ev.respond true], ?_, ?_, ?_⟩
          · simp [shopifyRunTrace, hE]
          · intro e he
            simp only [List.mem_cons, List.mem_append, List.mem_map] at he
            rcases he with rfl | (⟨b, _, rfl⟩ | rfl | ⟨b, _, rfl⟩) <;> rfl
          · intro e he
            simp only [List.mem_cons, List.not_mem_nil, or_false] at he
            rcases he with rfl | rfl | rfl | rfl | rfl <;> rfl
      | atMergeOrders =>
          intro _
          refine ⟨Ev.createTable (shopifyTempTableOrders t)
              :: (((chunksOf orders).map fun b =>
                    Ev.insertRows (shopifyTempTableOrders t) b.length)
                ++ Ev.createTable (shopifyTempTableItems t)
                  :: ((chunksOf items).map fun b =>
                      Ev.insertRows (shopifyTempTableItems t) b.length)),
            [Ev.merge MergeKind.shopifyOrders, Ev.respond false], ?_, ?_, ?_⟩
          · simp [shopifyRunTrace, hE]
          · intro e he
            simp only [List.mem_cons, List.mem_append, List.mem_map] at he
            rcases he with rfl | (⟨b, _, rfl⟩ | rfl | ⟨b, _, rfl⟩) <;> rfl
          · intro e he
            simp only [List.mem_cons, List.not_mem_nil, or_false] at he
            rcases he with rfl | rfl <;> rfl
      | atMergeItems =>
          intro _
          refine ⟨Ev.createTable (shopifyTempTableOrders t)
              :: (((chunksOf orders).map fun b =>
                    Ev.insertRows (shopifyTempTableOrders t) b.length)
                ++ Ev.createTable (shopifyTempTableItems t)
                  :: ((chunksOf items).map fun b =>
                      Ev.insertRows (shopifyTempTableItems t) b.length)),
            [Ev.merge MergeKind.shopifyOrders, Ev.merge MergeKind.shopifyItems,
              Ev.respond false], ?_, ?_, ?_⟩
          · simp [shopifyRunTrace, hE]
          · intro e he
            simp only [List.mem_cons, List.mem_append, List.mem_map] at he
            rcases he with rfl | (⟨b, _, rfl⟩ | rfl | ⟨b, _, rfl⟩) <;> rfl
          · intro e he
            simp only [List.mem_cons, List.not_mem_nil, or_false] at he
            rcases he with rfl | rfl | rfl <;> rfl

/-- Claim C4 witness: the theorem at a concrete one-order successful
Amazon run, whose trace does issue a merge. -/
theorem c4_merge_after_wait_witness :
    (∃ e ∈ amazonRunTrace [sampleReportOrder] AmazonFail.ok, e.isMerge = true) ∧
    (∃ pre post, amazonRunTrace [sampleReportOrder] AmazonFail.ok
        = pre ++ Ev.sleepMs 90000 :: post ∧
      (∀ e ∈ pre, e.isMerge = false) ∧ (∀ e ∈ post, e.isInsert = false)) :=
  ⟨⟨Ev.merge MergeKind.amazonOrders, by decide⟩,
    c4_merge_after_wait.1 [sampleReportOrder] AmazonFail.ok
      ⟨Ev.merge MergeKind.amazonOrders, by decide⟩⟩

/-- A sub-window whose report completes on the first poll and parses to
one order. -/
def c7GoodWindow : ReportWindow :=
  { statuses := fun _ => ReportStatus.done "doc-1", rows := [sampleReportOrder] }

/-- A sub-window whose report never leaves the in-progress state, so its
polling times out. -/
def c7TimeoutWindow : ReportWindow :=
  { statuses := fun _ => ReportStatus.inProgress, rows := [] }

/-- Claim C7 counterexample: a run whose first sub-window succeeded with
one collected order and whose second sub-window times out ends with the
timeout error escaping the window loop — nothing is staged, and the
order collected from the prior sub-window is discarded rather than
preserved. -/
theorem c7_counterexample :
    fetchAllWindows [c7GoodWindow] = Except.ok [sampleReportOrder] ∧
    fetchAllWindows [c7GoodWindow, c7TimeoutWindow]
      = Except.error "レポート生成タイムアウト（10分）" ∧
    stagedOrders [c7GoodWindow, c7TimeoutWindow] = none := by
  refine ⟨rfl, rfl, rfl⟩

/-- Claim C7 as amended: polling is bounded (60 polls of 10 seconds for
the 10-minute budget), but exceeding it is fatal to the whole run, not
just to the sub-window: whenever some sub-window never completes, the
window loop ends with the timeout error and the run stages nothing, even
though the preceding sub-windows had already collected their rows. -/
theorem c7_timeout_aborts_run (ws₁ ws₂ : List ReportWindow) (w : ReportWindow)
    (rs : List ReportOrder)
    (h₁ : fetchAllWindows ws₁ = Except.ok rs)
    (hw : ∀ k, w.statuses k = ReportStatus.inProgress) :
    fetchAllWindows (ws₁ ++ w :: ws₂) = Except.error "レポート生成タイムアウト（10分）" ∧
    stagedOrders (ws₁ ++ w :: ws₂) = none ∧
    maxPolls = 60 := by
  have hto : fetchAllWindows (ws₁ ++ w :: ws₂)
      = Except.error "レポート生成タイムアウト（10分）" := by
    induction ws₁ generalizing rs with
    | nil =>
        simp only [List.nil_append, fetchAllWindows, waitForReport,
          waitLoop_timeout w.statuses hw maxPolls 0]
    | cons w₁ t ih =>
        simp only [fetchAllWindows] at h₁
        cases hw₁ : waitForReport w₁.statuses with
        | error e => rw [hw₁] at h₁; exact absurd h₁ (by simp)
        | ok d =>
            rw [hw₁] at h₁
            cases ht : fetchAllWindows t with
            | error e => rw [ht] at h₁; exact absurd h₁ (by simp)
            | ok rest =>
                simp only [List.cons_append, fetchAllWindows, hw₁, List.append_eq, ih rest ht]
  exact ⟨hto, by simp only [stagedOrders, hto], rfl⟩

/-- Claim C7 witness: the amended theorem at the concrete two-window run
of the counterexample. -/
theorem c7_timeout_aborts_run_witness :
    fetchAllWindows [c7GoodWindow] = Except.ok [sampleReportOrder] ∧
    (∀ k, c7TimeoutWindow.statuses k = ReportStatus.inProgress) ∧
    stagedOrders ([c7GoodWindow] ++ c7TimeoutWindow :: []) = none :=
  ⟨rfl, fun _ => rfl,
    (c7_timeout_aborts_run [c7GoodWindow] [] c7TimeoutWindow [sampleReportOrder]
      rfl (fun _ => rfl)).2.1⟩

end Claims

end AndCore
